import Mathlib

set_option maxHeartbeats 1000000

/-!
Verification development for the NCCF API test runner.

This file gives a shallow embedding of the two Python variants of the
runner, `src/Role_based.py` (the aggregate-report variant) and
`src/new.py` (the pytest assertion variant), and proves properties of
the embedded definitions.

Modelling conventions:
* JSON/Python values are the inductive `PyVal`; Python `None` is
  `PyVal.null`; an absent case attribute is modelled as `Option.none`
  (or `PyVal.null` where the code itself stores the `.get(...)` result).
* Python dicts are association lists with unique keys in insertion
  order; `dictSet` overwrites in place or appends, `dictPop` removes,
  `dictMerge` is the `{**a, **b}` merge.
* Machine-independent effects are parameters: the per-process string
  hash of CPython (which is salted by `PYTHONHASHSEED` and therefore
  differs between runs) is a parameter `pyHash : String → Int`; the
  HTTP transport is a function from attempt index to an `Attempt`
  outcome (a response or a raised transport exception).
* Unicode-aware details of `str.lower`/`str.strip` and the
  `ensure_ascii`/`\uXXXX` escaping of `json.dumps` are modelled for the
  ASCII range only; Python `repr` string-escaping is not modelled
  (values in the claims are quote-free).
-/

namespace Nccf

/-- Python/JSON values as produced by `json.load` / `response.json()`. -/
inductive PyVal where
  | str (s : String)
  | int (n : Int)
  | bool (b : Bool)
  | null
  | list (xs : List PyVal)
  | dict (xs : List (String × PyVal))

/-- Python truthiness (`if value:`) for the shapes JSON can produce. -/
def pyTruthy : PyVal → Bool
  | .str s => s != ""
  | .int n => n != 0
  | .bool b => b
  | .null => false
  | .list xs => !xs.isEmpty
  | .dict xs => !xs.isEmpty

/-- Association-list lookup, the Python `d[k]` / `d.get(k)` on a dict. -/
def alookup {α : Type} : List (String × α) → String → Option α
  | [], _ => none
  | (k, v) :: rest, q => if k == q then some v else alookup rest q

/-- Python `d.get(k, default)`. -/
def alookupD {α : Type} (l : List (String × α)) (q : String) (dflt : α) : α :=
  (alookup l q).getD dflt

/-- Python `d[k] = v`: overwrite in place, else append (insertion order). -/
def dictSet {α : Type} (l : List (String × α)) (k : String) (v : α) : List (String × α) :=
  if l.any (fun kv => kv.1 == k) then
    l.map (fun kv => if kv.1 == k then (kv.1, v) else kv)
  else l ++ [(k, v)]

/-- Python `d.pop(k, None)`: remove the entry with that exact key. -/
def dictPop {α : Type} (l : List (String × α)) (k : String) : List (String × α) :=
  l.filter (fun kv => kv.1 != k)

/-- Python `{**a, **b}`: entries of `b` override / extend those of `a`. -/
def dictMerge {α : Type} (a b : List (String × α)) : List (String × α) :=
  b.foldl (fun acc kv => dictSet acc kv.1 kv.2) a

/-- `.get(k, default)` on a `PyVal` that is a dict (only used on dicts). -/
def dictGetD (v : PyVal) (key : String) (dflt : PyVal) : PyVal :=
  match v with
  | .dict xs => alookupD xs key dflt
  | _ => dflt

/-- Boolean substring test, Python `needle in hay` on strings
(`"" in s` is `True`, as in Python). -/
def listIsInfix (pat : List Char) : List Char → Bool
  | [] => pat.isEmpty
  | c :: rest => pat.isPrefixOf (c :: rest) || listIsInfix pat rest

/-- Python `needle in hay` for strings. -/
def strIn (needle hay : String) : Bool :=
  listIsInfix needle.data hay.data

/-- Python `str.lower()` (ASCII range). -/
def strLower (s : String) : String :=
  String.mk (s.data.map Char.toLower)

/-- Python `str.upper()` (ASCII range). -/
def strUpper (s : String) : String :=
  String.mk (s.data.map Char.toUpper)

/-- Concatenation of a list of strings. -/
def concatL : List String → String
  | [] => ""
  | s :: r => s ++ concatL r

/-- Python `sep.join(parts)`. -/
def joinSep (sep : String) : List String → String
  | [] => ""
  | [x] => x
  | x :: y :: r => x ++ sep ++ joinSep sep (y :: r)

/-- Python `s.replace(old, new)`: non-overlapping, left to right (only
used with non-empty `old`); `fuel` starts at the source length. -/
def replaceFuel (old new : List Char) : Nat → List Char → List Char
  | 0, l => l
  | _ + 1, [] => []
  | fuel + 1, c :: rest =>
    if old.isPrefixOf (c :: rest) then
      new ++ replaceFuel old new fuel ((c :: rest).drop old.length)
    else c :: replaceFuel old new fuel rest

def strReplace (s old new : String) : String :=
  String.mk (replaceFuel old.data new.data s.data.length s.data)

/-- Python `s.split(sep)` for a one-character separator
(`"".split(".") = [""]`, `"a..b".split(".") = ["a", "", "b"]`). -/
def splitCharAux (sep : Char) : List Char → List Char → List String
  | [], acc => [String.mk acc.reverse]
  | c :: rest, acc =>
    if c = sep then String.mk acc.reverse :: splitCharAux sep rest []
    else splitCharAux sep rest (c :: acc)

def splitChar (sep : Char) (s : String) : List String :=
  splitCharAux sep s.data []

/-- The brace characters, kept out of string literals. -/
def lbrace : Char := Char.ofNat 123

def rbrace : Char := Char.ofNat 125

mutual
/-- Python `repr()` restricted to JSON-shaped values (string escaping
inside `repr` is not modelled). -/
def pyRepr : PyVal → String
  | .str s => "'" ++ s ++ "'"
  | .int n => toString n
  | .bool b => if b then "True" else "False"
  | .null => "None"
  | .list xs => "[" ++ joinSep ", " (pyReprList xs) ++ "]"
  | .dict xs => "\x7b" ++ joinSep ", " (pyReprEntries xs) ++ "\x7d"

def pyReprList : List PyVal → List String
  | [] => []
  | v :: vs => pyRepr v :: pyReprList vs

def pyReprEntries : List (String × PyVal) → List String
  | [] => []
  | (k, v) :: vs => ("'" ++ k ++ "': " ++ pyRepr v) :: pyReprEntries vs
end

/-- Python `str()` (`f"{v}"`): identity on strings, `repr` otherwise. -/
def pyStr : PyVal → String
  | .str s => s
  | v => pyRepr v

/-- Escaping of one character inside a JSON string literal
(`json.dumps`); `\uXXXX` escapes of other control/non-ASCII characters
are not modelled. -/
def jsonEscapeChar (c : Char) : String :=
  if c = '"' then "\\\""
  else if c = '\\' then "\\\\"
  else if c = '\n' then "\\n"
  else if c = '\t' then "\\t"
  else if c = '\r' then "\\r"
  else String.mk [c]

def jsonEscape (s : String) : String :=
  concatL (s.data.map jsonEscapeChar)

mutual
/-- Python `json.dumps(v)` with the default separators `", "` / `": "`. -/
def jsonDumpsC : PyVal → String
  | .str s => "\"" ++ jsonEscape s ++ "\""
  | .int n => toString n
  | .bool b => if b then "true" else "false"
  | .null => "null"
  | .list xs => "[" ++ joinSep ", " (jsonDumpsCList xs) ++ "]"
  | .dict xs => "\x7b" ++ joinSep ", " (jsonDumpsCEntries xs) ++ "\x7d"

def jsonDumpsCList : List PyVal → List String
  | [] => []
  | v :: vs => jsonDumpsC v :: jsonDumpsCList vs

def jsonDumpsCEntries : List (String × PyVal) → List String
  | [] => []
  | (k, v) :: vs => ("\"" ++ jsonEscape k ++ "\": " ++ jsonDumpsC v) :: jsonDumpsCEntries vs
end

def spaces (n : Nat) : String :=
  String.mk (List.replicate n ' ')

mutual
/-- Python `json.dumps(v, indent=2)`; `ind` is the indentation level of
the enclosing container (0 at the top). -/
def jsonDumpsI (ind : Nat) : PyVal → String
  | .str s => "\"" ++ jsonEscape s ++ "\""
  | .int n => toString n
  | .bool b => if b then "true" else "false"
  | .null => "null"
  | .list xs =>
    match xs with
    | [] => "[]"
    | _ =>
      "[\n" ++ joinSep ",\n" (jsonDumpsIList (ind + 2) xs) ++
      "\n" ++ spaces ind ++ "]"
  | .dict xs =>
    match xs with
    | [] => "\x7b\x7d"
    | _ =>
      "\x7b\n" ++ joinSep ",\n" (jsonDumpsIEntries (ind + 2) xs) ++
      "\n" ++ spaces ind ++ "\x7d"

def jsonDumpsIList (ind : Nat) : List PyVal → List String
  | [] => []
  | v :: vs => (spaces ind ++ jsonDumpsI ind v) :: jsonDumpsIList ind vs

def jsonDumpsIEntries (ind : Nat) : List (String × PyVal) → List String
  | [] => []
  | (k, v) :: vs =>
    (spaces ind ++ "\"" ++ jsonEscape k ++ "\": " ++ jsonDumpsI ind v) ::
    jsonDumpsIEntries ind vs
end

/-- Python `html.escape` with its default `quote=True` (`&` first, then
angle brackets, then both quote characters). -/
def htmlEscape (s : String) : String :=
  strReplace (strReplace (strReplace (strReplace (strReplace s "&" "&amp;")
    "<" "&lt;") ">" "&gt;") "\"" "&quot;") "'" "&#x27;"

/-- ASCII whitespace as stripped by Python `str.strip()`. -/
def isWS (c : Char) : Bool :=
  c = ' ' || c = '\t' || c = '\n' || c = '\r' || c = '\x0b' || c = '\x0c'

def pyStripL (l : List Char) : List Char :=
  ((l.dropWhile isWS).reverse.dropWhile isWS).reverse

/-- Python `str.strip()`. -/
def pyStrip (s : String) : String :=
  String.mk (pyStripL s.data)

/-- Python `str.rstrip("/")` on a char list. -/
def rstripSlashL (l : List Char) : List Char :=
  (l.reverse.dropWhile (fun c => c = '/')).reverse

def rstripSlashStr (s : String) : String :=
  String.mk (rstripSlashL s.data)

/-- Python `f"{n:03d}"` for the default test-id suffix. -/
def pad3 (n : Nat) : String :=
  let s := toString n
  if s.length < 3 then String.mk (List.replicate (3 - s.length) '0') ++ s else s

/-- Python `int(s)` on a string: optional sign and decimal digits after
stripping whitespace (`None` on failure; digit-group underscores are not
modelled). -/
def pyInt? (s : String) : Option Int :=
  let t := (pyStrip s).data
  let sgnDigits : Int × List Char :=
    match t with
    | '+' :: r => (1, r)
    | '-' :: r => (-1, r)
    | r => (1, r)
  let ds := sgnDigits.2
  if !ds.isEmpty && ds.all Char.isDigit then
    some (sgnDigits.1 * Int.ofNat (ds.foldl (fun a c => a * 10 + (c.toNat - 48)) 0))
  else none

/-- Rendering of an `Option String` in a Python f-string
(`None` prints as `"None"`). -/
def optES : Option String → String
  | some s => s
  | none => "None"

/-- Truthiness of `Option String` (Python: `None` and `""` are falsy). -/
def epTruthy : Option String → Bool
  | some s => s != ""
  | none => false

/-- Python `a or b` on possibly-missing strings
(`case.get("endpoint") or case.get("api_endpoint")`). -/
def pyOrOS (a b : Option String) : Option String :=
  if epTruthy a then a else b

/-- Python `a or b` on `PyVal` (returns `b` whatever it is when `a` is
falsy). -/
def pyOrV (a b : PyVal) : PyVal :=
  if pyTruthy a then a else b

/-- `\w` of Python's `re` restricted to ASCII. -/
def wordChar (c : Char) : Bool :=
  c.isAlphanum || c = '_'

/-! ## Shared helpers of `Role_based.py` (and their `new.py` variants) -/

/-- `Role_based.py:deterministic_dummy_id_token`.  CPython's `hash` on
strings is salted per process (`PYTHONHASHSEED`), so the interpreter's
hash function is a parameter `pyHash`; a fixed process fixes `pyHash`,
distinct runs may supply distinct functions. -/
def deterministic_dummy_id_token (pyHash : String → Int) (seed_value : String) : String :=
  "dummy-id-" ++ toString ((pyHash seed_value).natAbs % 10 ^ 12)

/-- The sensitive header names of `Role_based.py:redact_headers`. -/
def SENSITIVE_ROLE : List String :=
  ["authorization", "token", "x-api-key", "x-access-token", "x-id-token"]

/-- The sensitive header names of `new.py:redact_headers`. -/
def SENSITIVE_NEW : List String :=
  ["authorization", "token", "x-api-key", "x-access-token"]

/-- `Role_based.py:redact_headers` (`if k and k.lower() in (...)`). -/
def redact_headers (headers : List (String × String)) : List (String × String) :=
  headers.map (fun kv =>
    if kv.1 != "" && SENSITIVE_ROLE.contains (strLower kv.1) then (kv.1, "***redacted***")
    else kv)

/-- `new.py:redact_headers` (no `x-id-token` in its tuple, no `if k`). -/
def new_redact_headers (headers : List (String × String)) : List (String × String) :=
  headers.map (fun kv =>
    if SENSITIVE_NEW.contains (strLower kv.1) then (kv.1, "***redacted***")
    else kv)

/-- `Role_based.py:validate_headers`: every expected (file-level) header
must be present on the response (requests' header dict is
case-insensitive) with a case-insensitively equal value. -/
def lookupCI (headers : List (String × String)) (key : String) : Option String :=
  (headers.find? (fun kv => strLower kv.1 == strLower key)).map (fun kv => kv.2)

def validate_headers (respHeaders expectedHeaders : List (String × String)) :
    Bool × List String :=
  let errs := expectedHeaders.filterMap (fun kv =>
    match lookupCI respHeaders kv.1 with
    | none => some ("Missing header: " ++ kv.1)
    | some av =>
      if strLower av != strLower kv.2 then
        some ("Header '" ++ kv.1 ++ "' mismatch: expected '" ++ kv.2 ++ "', got '" ++ av ++ "'")
      else none)
  (errs.isEmpty, errs)

/-- Nested-path walk of `Role_based.py:validate_response_simple`: list
nodes are indexed by `int(k)` (out of range or unparsable → `None`),
dict nodes by key; any other node (including a `None` value reached
mid-walk) ends the walk with `None`. -/
def resolveNested : PyVal → List String → Option PyVal
  | v, [] => some v
  | v, k :: ks =>
    match v with
    | .list xs =>
      match pyInt? k with
      | some i =>
        if i < 0 then none
        else match xs[i.toNat]? with
          | some w => resolveNested w ks
          | none => none
      | none => none
    | .dict d =>
      match alookup d k with
      | some w => resolveNested w ks
      | none => none
    | _ => none

/-- The `status`/`message` top-level checks of
`validate_response_simple` (exact equality after `strip()` or, with the
partial toggle, case-insensitive substring). -/
def smErrors (allowPartial : Bool) (respJson : PyVal) (expd : List (String × PyVal)) :
    List String :=
  (["status", "message"]).filterMap (fun key =>
    match alookup expd key with
    | none => none
    | some ev =>
      let evs := pyStrip (pyStr ev)
      let avs := pyStrip (pyStr (dictGetD respJson key (.str "")))
      if allowPartial then
        if strIn (strLower evs) (strLower avs) then none
        else some ("Expected '" ++ key ++ "' to contain: " ++ evs ++ ", got: " ++ avs)
      else
        if evs == avs then none
        else some ("Expected '" ++ key ++ "': " ++ evs ++ ", got: " ++ avs))

/-- The `query_content` / `farmer_full_name` check of
`validate_response_simple` (skipped for `authentication`-typed tests). -/
def contentErrors (respJson : PyVal) (queryContent : Option String) (testType : String) :
    List String :=
  match queryContent with
  | none => []
  | some q =>
    if q != "" && testType != "" && !(strIn "authentication" (strLower testType)) then
      match dictGetD respJson "data" (.list []) with
      | .list items =>
        if items.any (fun it =>
            match it with
            | .dict d => strIn (strLower q) (strLower (pyStr (alookupD d "farmer_full_name" (.str ""))))
            | _ => false) then []
        else ["Query content '" ++ q ++ "' not found in any farmer_full_name in response data"]
      | _ => ["Response 'data' is not a list"]
    else []

/-- The nested-key checks of `validate_response_simple`. -/
def nestedErrors (allowPartial : Bool) (respJson : PyVal)
    (nestedKeys : List (String × PyVal)) : List String :=
  nestedKeys.filterMap (fun kv =>
    match resolveNested respJson (splitChar '.' kv.1) with
    | none => some ("Missing nested key: " ++ kv.1)
    | some v =>
      match v with
      | .null => some ("Missing nested key: " ++ kv.1)
      | _ =>
        let vs := pyStr v
        let es := pyStr kv.2
        if allowPartial then
          if strIn (strLower es) (strLower vs) then none
          else some ("Nested key '" ++ kv.1 ++ "' value mismatch: expected (partial) '" ++
            es ++ "', got '" ++ vs ++ "'")
        else
          if es == vs then none
          else some ("Nested key '" ++ kv.1 ++ "' value mismatch: expected '" ++
            es ++ "', got '" ++ vs ++ "'"))

/-- `Role_based.py:validate_response_simple`.  A non-dict
`expected_response` contributes no top-level checks
(`expected_response if isinstance(expected_response, dict) else {}`);
a non-dict response fails immediately. -/
def expDict : PyVal → List (String × PyVal)
  | .dict d => d
  | _ => []

def validate_response_simple (allowPartial : Bool) (respJson expectedResponse : PyVal)
    (queryContent : Option String) (testType : String)
    (nestedKeys : List (String × PyVal)) : Bool × List String :=
  match respJson with
  | .dict _ =>
    let expd := expDict expectedResponse
    let errs := smErrors allowPartial respJson expd ++
      contentErrors respJson queryContent testType ++
      nestedErrors allowPartial respJson nestedKeys
    (errs.isEmpty, errs)
  | _ => (false, ["Response is not a JSON object"])

/-! ## Token resolution -/

/-- The tokens pre-fetched at startup: `access`/`id`/`refresh` strings
per role key (empty strings when the login fetch failed). -/
structure TokenSet where
  access_token : String
  id_token : String
  refresh_token : String

/-- The keys of `Role_based.py:ALL_TOKENS` (fixed by `role_map`;
present even when a fetch fails). -/
def ALL_TOKENS_KEYS : List String :=
  ["valid_admin", "valid_aggregator", "valid_branch", "valid"]

/-- The JSON-driven auth-token logic of `Role_based.py:run_all_tests`
(lines 294-305): pre-fetched tokens for known keys, removal of both
auth headers for the sentinel `"empty"`, and negative tokens from the
suite's `tokens` map plus a deterministic dummy id token otherwise. -/
def apply_auth_role (allTokens : String → TokenSet) (tokensDict : List (String × String))
    (pyHash : String → Int) (tokenKey : String)
    (headers : List (String × String)) : List (String × String) :=
  if ALL_TOKENS_KEYS.contains tokenKey then
    let T := allTokens tokenKey
    dictSet (dictSet headers "Authorization" ("Bearer " ++ T.access_token))
      "X-ID-Token" T.id_token
  else if tokenKey == "empty" then
    dictPop (dictPop headers "Authorization") "X-ID-Token"
  else
    dictSet (dictSet headers "Authorization"
        ("Bearer " ++ alookupD tokensDict tokenKey ""))
      "X-ID-Token" (deterministic_dummy_id_token pyHash tokenKey)

/-- The token handling of `new.py:test_api_from_json` (lines 170-176):
a truthy entry of the suite's `tokens` map under the key sets
`Authorization`; otherwise the key `"empty"` removes it; otherwise the
headers are left untouched. -/
def apply_auth_new (tokens : List (String × String)) (tokenKey : String)
    (headers : List (String × String)) : List (String × String) :=
  match alookup tokens tokenKey with
  | some v =>
    if v != "" then dictSet headers "Authorization" ("Bearer " ++ v)
    else if tokenKey == "empty" then dictPop headers "Authorization"
    else headers
  | none =>
    if tokenKey == "empty" then dictPop headers "Authorization"
    else headers

/-- The truthy lookup `data.get("tokens", {}).get(token_key)` as used by
the `if token_value:` test of `new.py`. -/
def truthyGet (tokens : List (String × String)) (k : String) : Option String :=
  match alookup tokens k with
  | some v => if v != "" then some v else none
  | none => none

/-! ## URL construction -/

/-- `re.findall(r"\{(\w+)\}", endpoint)`: all placeholder names, left to
right, non-overlapping; on a failed match at an opening brace the scan
advances one character.  `fuel` starts at the list length. -/
def findPlaceholdersF : Nat → List Char → List String
  | 0, _ => []
  | _ + 1, [] => []
  | fuel + 1, c :: rest =>
    if c = lbrace then
      let run := rest.takeWhile wordChar
      match rest.drop run.length with
      | d :: rest2 =>
        if d = rbrace && !run.isEmpty then String.mk run :: findPlaceholdersF fuel rest2
        else findPlaceholdersF fuel rest
      | [] => findPlaceholdersF fuel rest
    else findPlaceholdersF fuel rest

def findPlaceholders (s : String) : List String :=
  findPlaceholdersF s.data.length s.data

/-- The placeholder substitution of both runners: for each placeholder
found in the original endpoint, replace every occurrence of
`{name}` by `str(path_params[name])` when the name is bound. -/
def substPath (endpoint : String) (pathParams : List (String × PyVal)) : String :=
  (findPlaceholders endpoint).foldl (fun ep ph =>
    match alookup pathParams ph with
    | some v =>
      strReplace ep (String.mk (lbrace :: ph.data ++ [rbrace])) (pyStr v)
    | none => ep) endpoint

/-! ## The role-based runner (`Role_based.py:run_all_tests`) -/

/-- `GLOBAL_PERF_THRESHOLD_MS` of `Role_based.py`. -/
def GLOBAL_PERF_THRESHOLD_MS : Nat := 1500

/-- One HTTP response as seen by the runner: status code, the parsed
JSON body (`none` when `resp.json()` raises), the raw text, and the
response headers (requests exposes them case-insensitively, handled by
`lookupCI`). -/
structure HttpResp where
  status : Int
  jsonBody : Option PyVal
  text : String
  headers : List (String × String)

/-- The outcome of one `requests.get` call: a response together with
its elapsed milliseconds, or a raised transport exception
(`requests.RequestException`). -/
inductive Attempt where
  | resp (r : HttpResp) (elapsedMs : Nat)
  | exc (msg : String) (elapsedMs : Nat)

/-- Result of the retry loop: the first response (with how many calls
and sleeps happened before), or exhaustion after every call raised. -/
inductive LoopOutcome where
  | success (r : HttpResp) (elapsedMs : Nat) (attemptsMade : Nat) (sleeps : Nat)
  | exhausted (lastMsg : String) (attemptsMade : Nat) (sleeps : Nat)

/-- The `while attempt <= MAX_RETRIES` loop (lines 310-418): `i` is the
current value of `attempt`; `remaining` is `MAX_RETRIES + 1 - i`, so the
loop starts at `(0, MAX_RETRIES + 1)`.  A raised attempt increments
`attempt`; when it then exceeds `MAX_RETRIES` (i.e. `remaining = 1`) the
loop records the failure, else it sleeps `RETRY_DELAY` seconds and
retries. -/
def caseLoopAux (attempts : Nat → Attempt) : Nat → Nat → LoopOutcome
  | i, 0 => .exhausted "" i i
  | i, remaining + 1 =>
    match attempts i with
    | .resp r e => .success r e (i + 1) i
    | .exc m _ =>
      match remaining with
      | 0 => .exhausted m (i + 1) i
      | rem + 1 => caseLoopAux attempts (i + 1) (rem + 1)

def caseLoop (attempts : Nat → Attempt) (maxRetries : Nat) : LoopOutcome :=
  caseLoopAux attempts 0 (maxRetries + 1)

/-- One declarative test case (`Role_based.py`, lines 254-260, 283-305,
329-350).  `none` marks an absent attribute (the JSON-null edge of
`.get` defaults is not modelled); `expected_response` /
`expected_response_options` keep the raw value (`PyVal.null` when
absent) because the code chains them with `or`. -/
structure RoleCase where
  test_id : Option String
  description : Option String
  ttype : Option String
  method : Option String
  endpoint : Option String
  api_endpoint : Option String
  headers : List (String × String)
  query_params : List (String × String)
  path_params : List (String × PyVal)
  auth_token : Option String
  expected_status : Option Int
  expected_response : PyVal
  expected_response_options : PyVal
  nested_keys : List (String × PyVal)
  expected_content_type : Option String

/-- The `status_code` field of a recorded result: an integer, the
literal `"-"` of skipped cases, or the literal `"ERROR"` of exhausted
retries. -/
inductive StatusField where
  | code (n : Int)
  | dash
  | errorS
deriving DecidableEq

/-- One entry of `SUMMARY["results"]`.  `endpoint` is `Option String`
because the skipped-non-GET branch stores the raw (possibly `None`)
endpoint. -/
structure ResultEntry where
  id : String
  desc : String
  status_code : StatusField
  result : String
  details : String
  api_name : String
  method : String
  endpoint : Option String
deriving DecidableEq

/-- The mutable `SUMMARY` global. -/
structure Summary where
  total : Nat
  passed : Nat
  failed : Nat
  skipped : Nat
  results : List ResultEntry
  slow_tests : List String
deriving DecidableEq

/-- `SUMMARY` plus the `PERF_STATS` global. -/
structure RunState where
  summary : Summary
  perf : List Nat
deriving DecidableEq

def SUMMARY_INIT : Summary :=
  { total := 0, passed := 0, failed := 0, skipped := 0, results := [], slow_tests := [] }

def RUNSTATE_INIT : RunState :=
  { summary := SUMMARY_INIT, perf := [] }

/-- How one case changed the aggregate counters. -/
inductive CaseKind where
  | skippedK
  | passedK
  | failedK
deriving DecidableEq

/-- Everything one case contributes to the run state. -/
structure CaseOut where
  entry : ResultEntry
  kind : CaseKind
  perfAdd : List Nat
  slowAdd : List String
  attemptsMade : Nat
  sleeps : Nat

/-- Run-wide configuration of `Role_based.py`: the partial-match
toggle, the retry bound, the `BASE_URL` environment fallback, the
pre-fetched tokens, and the process hash function. -/
structure RoleCtx where
  allowPartial : Bool
  maxRetries : Nat
  envBaseUrl : String
  allTokens : String → TokenSet
  pyHash : String → Int

/-- The per-request `details_html` f-string template (lines 361-379). -/
def detailsTemplate (testId desc method url headersRepr requestDispEsc : String)
    (status : Int) (elapsed : Nat) (slowFlag bodyPretty errorSection : String)
    (passed : Bool) : String :=
  "\n<pre>\n=== Request " ++ testId ++ " ===\nScenario: " ++ desc ++
  "\nURL: " ++ method ++ " " ++ url ++
  "\nHeaders: " ++ headersRepr ++
  "\n" ++ requestDispEsc ++
  "\n\n--- Response " ++ testId ++ " --- \nStatus: " ++ toString status ++
  "\nTime: " ++ toString elapsed ++ " ms" ++ slowFlag ++
  "\nBody:\n" ++ bodyPretty ++
  "\n</pre>\n" ++ errorSection ++
  "\n<pre>\n" ++ (if passed then "✅ PASSED" else "❌ FAILED") ++ " " ++ testId ++
  "\n</pre>\n"

/-- The body of the per-case iteration of `run_all_tests`
(lines 254-418), as a pure function of the case, the file-level data
and the transport.  State mutation is applied by `processCase`. -/
def runCaseOut (ctx : RoleCtx) (stem baseUrl defaultMethod : String)
    (fileHeaders : List (String × String)) (tokensDict : List (String × String))
    (attempts : Nat → Attempt) (idx : Nat) (c : RoleCase) : CaseOut :=
  let testId := c.test_id.getD (stem ++ "_" ++ pad3 idx)
  let desc := c.description.getD "-"
  let testType := c.ttype.getD ""
  let method := strUpper (c.method.getD defaultMethod)
  let endpoint0 := pyOrOS c.endpoint c.api_endpoint
  if method != "GET" then
    let e : ResultEntry :=
      { id := testId, desc := desc, status_code := .dash, result := "SKIPPED",
        details := "Skipped non-GET method (" ++ method ++ ")",
        api_name := method ++ " " ++ optES endpoint0,
        method := method, endpoint := endpoint0 }
    { entry := e, kind := .skippedK, perfAdd := [], slowAdd := [],
      attemptsMade := 0, sleeps := 0 }
  else if !epTruthy endpoint0 then
    let e : ResultEntry :=
      { id := testId, desc := desc, status_code := .dash, result := "SKIPPED",
        details := "Missing endpoint", api_name := "Unknown",
        method := "", endpoint := some "" }
    { entry := e, kind := .skippedK, perfAdd := [], slowAdd := [],
      attemptsMade := 0, sleeps := 0 }
  else
    let ep := (endpoint0.getD "")
    let headers0 := dictSet (dictMerge fileHeaders c.headers) "Accept" "application/json"
    let ep1 := substPath ep c.path_params
    let url := baseUrl ++ ep1
    let tokenKey := c.auth_token.getD "valid"
    let headers1 := apply_auth_role ctx.allTokens tokensDict ctx.pyHash tokenKey headers0
    match caseLoop attempts ctx.maxRetries with
    | .exhausted lastMsg attemptsMade sleeps =>
      let e : ResultEntry :=
        { id := testId, desc := desc, status_code := .errorS, result := "FAIL",
          details := "<pre>Exception: " ++ htmlEscape lastMsg ++ "</pre>",
          api_name := method ++ " " ++ ep1, method := method, endpoint := some ep1 }
      { entry := e, kind := .failedK, perfAdd := [], slowAdd := [],
        attemptsMade := attemptsMade, sleeps := sleeps }
    | .success r elapsed attemptsMade sleeps =>
      let statusCode := r.status
      let respJson := r.jsonBody.getD (.dict [])
      let respBody := match r.jsonBody with
        | some j => jsonDumpsI 0 j
        | none => r.text
      let statusErrs := match c.expected_status with
        | some es => if es != 0 && statusCode != es then
            ["Expected " ++ toString es ++ ", got " ++ toString statusCode]
          else []
        | none => []
      let effExp := pyOrV c.expected_response c.expected_response_options
      let queryContent := alookup c.query_params "content"
      let valErrs :=
        if pyTruthy effExp || !c.nested_keys.isEmpty then
          (validate_response_simple ctx.allowPartial respJson (pyOrV effExp (.dict []))
            queryContent testType c.nested_keys).2
        else []
      let hdrErrs := (validate_headers r.headers fileHeaders).2
      let ctExpected := c.expected_content_type.getD "application/json"
      let ctErrs := match lookupCI r.headers "Content-Type" with
        | some ct =>
          if ct != "" && !(strIn ctExpected ct) then
            ["Expected Content-Type '" ++ ctExpected ++ "', got '" ++ ct ++ "'"]
          else []
        | none => []
      let errors := statusErrs ++ valErrs ++ hdrErrs ++ ctErrs
      let testPassed := errors.isEmpty
      let slowFlag :=
        if GLOBAL_PERF_THRESHOLD_MS < elapsed then
          " → ⚠️ Slow (" ++ toString elapsed ++ " > " ++
            toString GLOBAL_PERF_THRESHOLD_MS ++ " ms)"
        else " → ✅ OK"
      let requestDisplay :=
        if !c.query_params.isEmpty then
          jsonDumpsI 0 (.dict (c.query_params.map (fun kv => (kv.1, PyVal.str kv.2))))
        else "-"
      let headersRepr :=
        pyRepr (.dict ((redact_headers headers1).map (fun kv => (kv.1, PyVal.str kv.2))))
      let errorSection :=
        if !errors.isEmpty then
          "<div style='color:red;font-weight:bold;'>Errors: " ++
            jsonDumpsI 0 (.list (errors.map PyVal.str)) ++ "</div>"
        else ""
      let details := detailsTemplate testId desc method url headersRepr
        (htmlEscape requestDisplay) statusCode elapsed slowFlag
        (htmlEscape respBody) errorSection testPassed
      let e : ResultEntry :=
        { id := testId, desc := desc, status_code := .code statusCode,
          result := if testPassed then "PASS" else "FAIL", details := details,
          api_name := method ++ " " ++ ep1, method := method, endpoint := some ep1 }
      { entry := e, kind := if testPassed then .passedK else .failedK,
        perfAdd := [elapsed],
        slowAdd := if GLOBAL_PERF_THRESHOLD_MS < elapsed then [testId] else [],
        attemptsMade := attemptsMade, sleeps := sleeps }

/-- Applying one case's contribution to the global state: `total` and
`results` always grow by one, exactly one of the three outcome counters
grows by one, and `PERF_STATS` / `slow_tests` grow by the case's
additions. -/
def processCase (ctx : RoleCtx) (stem baseUrl defaultMethod : String)
    (fileHeaders tokensDict : List (String × String))
    (attempts : Nat → Attempt) (idx : Nat) (c : RoleCase) (st : RunState) : RunState :=
  let o := runCaseOut ctx stem baseUrl defaultMethod fileHeaders tokensDict attempts idx c
  { summary :=
      { total := st.summary.total + 1,
        passed := st.summary.passed + (if o.kind = .passedK then 1 else 0),
        failed := st.summary.failed + (if o.kind = .failedK then 1 else 0),
        skipped := st.summary.skipped + (if o.kind = .skippedK then 1 else 0),
        results := st.summary.results ++ [o.entry],
        slow_tests := st.summary.slow_tests ++ o.slowAdd },
    perf := st.perf ++ o.perfAdd }

/-- The `for idx, case in enumerate(..., 1)` loop; `attemptsF i j` is
the outcome of the `j`-th HTTP call of the case at position `i`. -/
def runCasesAux (ctx : RoleCtx) (stem baseUrl defaultMethod : String)
    (fileHeaders tokensDict : List (String × String))
    (attemptsF : Nat → Nat → Attempt) (idx : Nat) (cs : List RoleCase)
    (st : RunState) : RunState :=
  match cs with
  | [] => st
  | c :: rest =>
    runCasesAux ctx stem baseUrl defaultMethod fileHeaders tokensDict attemptsF (idx + 1)
      rest
      (processCase ctx stem baseUrl defaultMethod fileHeaders tokensDict (attemptsF idx)
        idx c st)

/-- One suite file of the role-based runner. -/
structure RoleFile where
  base_url : Option String
  method : Option String
  headers : List (String × String)
  tokens : List (String × String)
  test_cases : List RoleCase

/-- Processing one discovered JSON file (lines 240-252): a file that
fails to load (`none`) is skipped with the run continuing. -/
def runFile (ctx : RoleCtx) (stem : String) (file : Option RoleFile)
    (attemptsF : Nat → Nat → Attempt) (st : RunState) : RunState :=
  match file with
  | none => st
  | some f =>
    let baseUrl := rstripSlashStr (f.base_url.getD ctx.envBaseUrl)
    let defaultMethod := strUpper (f.method.getD "GET")
    runCasesAux ctx stem baseUrl defaultMethod f.headers f.tokens attemptsF 1
      f.test_cases st

/-- `Role_based.py:run_all_tests` over the discovered files (stem,
parsed content or `none` for a malformed file, transport). -/
def run_all_tests (ctx : RoleCtx)
    (files : List (String × Option RoleFile × (Nat → Nat → Attempt)))
    (st : RunState) : RunState :=
  files.foldl (fun s fd => runFile ctx fd.1 fd.2.1 fd.2.2 s) st

/-- The result entries a list of cases contributes, in encounter order
(derived from `runCaseOut`; used to state that every case is recorded
independently of the others). -/
def caseEntries (ctx : RoleCtx) (stem baseUrl defaultMethod : String)
    (fileHeaders tokensDict : List (String × String))
    (attemptsF : Nat → Nat → Attempt) (idx : Nat) : List RoleCase → List ResultEntry
  | [] => []
  | c :: rest =>
    (runCaseOut ctx stem baseUrl defaultMethod fileHeaders tokensDict (attemptsF idx)
      idx c).entry ::
    caseEntries ctx stem baseUrl defaultMethod fileHeaders tokensDict attemptsF (idx + 1)
      rest

/-! ## Endpoint-group normalization (`Role_based.py:generate_html`,
lines 486-492) -/

/-- `[0-9a-fA-F-]` of the UUID-like alternative. -/
def isHexDash (c : Char) : Bool :=
  c.isDigit || ('a' ≤ c && c ≤ 'f') || ('A' ≤ c && c ≤ 'F') || c = '-'

/-- `[\w-]`. -/
def isWordDash (c : Char) : Bool :=
  wordChar c || c = '-'

/-- One alternative of `r"/[0-9a-fA-F-]{8,}|/\d+|/invalid-[\w-]+|/\{.*?\}"`
tried at a `/`; `rest` is the text after the slash and the result the
text after the match.  Alternatives are tried in the pattern's order;
the quantified classes match greedily, `.*?` minimally (and `.` does
not cross a newline). -/
def alt1 (rest : List Char) : Option (List Char) :=
  let run := rest.takeWhile isHexDash
  if 8 ≤ run.length then some (rest.drop run.length) else none

def alt2 (rest : List Char) : Option (List Char) :=
  let run := rest.takeWhile Char.isDigit
  if 1 ≤ run.length then some (rest.drop run.length) else none

def alt3 (rest : List Char) : Option (List Char) :=
  if ("invalid-".data).isPrefixOf rest then
    let r2 := rest.drop 8
    let run := r2.takeWhile isWordDash
    if 1 ≤ run.length then some (r2.drop run.length) else none
  else none

def alt4 (rest : List Char) : Option (List Char) :=
  match rest with
  | c :: t =>
    if c = lbrace then
      let mid := t.takeWhile (fun d => d != rbrace && d != '\n')
      match t.drop mid.length with
      | d :: t2 => if d = rbrace then some t2 else none
      | [] => none
    else none
  | [] => none

def tryAlts (rest : List Char) : Option (List Char) :=
  match alt1 rest with
  | some r => some r
  | none =>
    match alt2 rest with
    | some r => some r
    | none =>
      match alt3 rest with
      | some r => some r
      | none => alt4 rest

/-- `re.sub(pattern, "", s)`: left-to-right non-overlapping deletion;
a position that starts no match emits its character and advances by
one.  All alternatives begin with `/`.  `fuel` starts at the length. -/
def scanFuel : Nat → List Char → List Char
  | 0, l => l
  | _ + 1, [] => []
  | fuel + 1, c :: rest =>
    if c = '/' then
      match tryAlts rest with
      | some rest2 => scanFuel fuel rest2
      | none => c :: scanFuel fuel rest
    else c :: scanFuel fuel rest

/-- The group key of one recorded result: `f"{method} {endpoint}"`,
stripped (`or api_name` when empty), truncated at `?`, with volatile
path segments deleted, right-stripped of `/` (`or "/"` when empty). -/
def groupKey (method : String) (endpoint : Option String) (apiName : String) : String :=
  let ep0 := pyStrip (method ++ " " ++ optES endpoint)
  let ep1 := if ep0 == "" then apiName else ep0
  let ep2 := ep1.data.takeWhile (fun c => c != '?')
  let base := rstripSlashL (scanFuel ep2.length ep2)
  if base.isEmpty then "/" else String.mk base

/-! ## The assertion-based variant (`src/new.py`) -/

/-- Non-`AssertionError` exceptions (`TypeError`, `AttributeError`) are
distinguished from failed assertions because pytest reports them
differently; both abort the running test function. -/
inductive PyExc where
  | assertExc (msg : String)
  | typeExc (msg : String)
deriving DecidableEq

/-- `type(v).__name__`. -/
def pyTypeName : PyVal → String
  | .str _ => "str"
  | .int _ => "int"
  | .bool _ => "bool"
  | .null => "NoneType"
  | .list _ => "list"
  | .dict _ => "dict"

mutual
/-- Python `==` on JSON-shaped values (structural; the numeric
`True == 1` cross-equality and order-insensitive dict comparison are
not modelled — the runner only compares strings against list items). -/
def pyEq : PyVal → PyVal → Bool
  | .str a, .str b => a == b
  | .int a, .int b => a == b
  | .bool a, .bool b => a == b
  | .null, .null => true
  | .list a, .list b => pyEqList a b
  | .dict a, .dict b => pyEqEntries a b
  | _, _ => false

def pyEqList : List PyVal → List PyVal → Bool
  | [], [] => true
  | a :: as', b :: bs => pyEq a b && pyEqList as' bs
  | _, _ => false

def pyEqEntries : List (String × PyVal) → List (String × PyVal) → Bool
  | [], [] => true
  | (k, v) :: as', (k2, v2) :: bs => k == k2 && pyEq v v2 && pyEqEntries as' bs
  | _, _ => false
end

/-- Python `x in container` for the container shapes the validator can
meet: key membership for dicts (unhashable keys raise), `==` membership
for lists, substring for strings; other shapes are not iterable. -/
def pyInVal (container x : PyVal) : Except PyExc Bool :=
  match container with
  | .dict d =>
    match x with
    | .str s => .ok (d.any (fun kv => kv.1 == s))
    | .list _ => .error (.typeExc "unhashable type: 'list'")
    | .dict _ => .error (.typeExc "unhashable type: 'dict'")
    | _ => .ok false
  | .list xs => .ok (xs.any (fun e => pyEq e x))
  | .str s =>
    match x with
    | .str t => .ok (strIn t s)
    | _ => .error (.typeExc "'in <string>' requires string as left operand")
  | other => .error (.typeExc ("argument of type '" ++ pyTypeName other ++ "' is not iterable"))

/-- Modelled from the external `jsonschema` library, restricted to the
`"type"` keyword (a schema without a usable `"type"` accepts
everything here). -/
def schemaTypeOk (t : String) (v : PyVal) : Bool :=
  if t == "object" then match v with | .dict _ => true | _ => false
  else if t == "string" then match v with | .str _ => true | _ => false
  else if t == "array" then match v with | .list _ => true | _ => false
  else if t == "boolean" then match v with | .bool _ => true | _ => false
  else if t == "integer" then match v with | .int _ => true | _ => false
  else if t == "number" then match v with | .int _ => true | _ => false
  else if t == "null" then match v with | .null => true | _ => false
  else true

/-- Modelled from the external `jsonschema` library: whether
`jsonschema.validate(instance, schema)` succeeds, and the
`ValidationError.message` it raises otherwise (its `%r`-formatted
instance). -/
def schemaOk (schema inst : PyVal) : Bool :=
  match schema with
  | .dict d =>
    match alookup d "type" with
    | some (.str t) => schemaTypeOk t inst
    | _ => true
  | _ => true

def schemaErrMsg (schema inst : PyVal) : String :=
  match schema with
  | .dict d =>
    match alookup d "type" with
    | some (.str t) => pyRepr inst ++ " is not of type '" ++ t ++ "'"
    | _ => ""
  | _ => ""

/-- `new.py:validate_schema`: asserts (raises `AssertionError`) when
the schema rejects the response. -/
def validate_schema (testId : String) (respJson schema : PyVal) : Except PyExc Unit :=
  if schemaOk schema respJson then .ok ()
  else .error (.assertExc (testId ++ " | Schema validation failed: " ++
    schemaErrMsg schema respJson))

/-- `expected_response.get("mandatory_fields", [])` as an iterable
(non-list truthy shapes are not modelled). -/
def asListD : PyVal → List PyVal
  | .list l => l
  | _ => []

def asDictD : PyVal → List (String × PyVal)
  | .dict d => d
  | _ => []

/-- The `mandatory_fields` loop of `new.py:validate_response`. -/
def mandRun (dataDict : PyVal) : List PyVal → Except PyExc (List String)
  | [] => .ok []
  | f :: rest => do
    let b ← pyInVal dataDict f
    let more ← mandRun dataDict rest
    .ok ((if b then [] else ["Missing mandatory field: " ++ pyStr f]) ++ more)

/-- One `field_types` check (`string` / `boolean` / `null|string`; any
other tag checks nothing). -/
def ftCheck (k : String) (vt value : PyVal) : List String :=
  match vt with
  | .str t =>
    if t == "string" then
      match value with
      | .null => []
      | .str _ => []
      | _ => ["Field '" ++ k ++ "' expected string, got " ++ pyTypeName value]
    else if t == "boolean" then
      match value with
      | .bool _ => []
      | _ => ["Field '" ++ k ++ "' expected boolean, got " ++ pyTypeName value]
    else if t == "null|string" then
      match value with
      | .null => []
      | .str _ => []
      | _ => ["Field '" ++ k ++ "' expected null|string, got " ++ pyTypeName value]
    else []
  | _ => []

/-- The `field_types` loop; `data_dict.get(k)` raises when the `data`
value is not a dict (and the mapping is non-empty). -/
def ftRun (dataDict : PyVal) : List (String × PyVal) → Except PyExc (List String)
  | [] => .ok []
  | (k, vt) :: rest =>
    match dataDict with
    | .dict dd => do
      let value := (alookup dd k).getD .null
      let more ← ftRun dataDict rest
      .ok (ftCheck k vt value ++ more)
    | other =>
      .error (.typeExc ("'" ++ pyTypeName other ++ "' object has no attribute 'get'"))

/-- Evaluation of one candidate of `new.py:validate_response`
(lines 100-138): `some []` means "fully matched", `some errs` the
candidate's discrepancies, `none` a candidate of an unhandled shape
(skipped silently by the loop); `.error` a raised exception (failed
schema assertion or type error). -/
def evalCandidate (testId : String) (respJson cand : PyVal) :
    Except PyExc (Option (List String)) :=
  match cand with
  | .dict cd =>
    match respJson with
    | .dict rd => do
      let dataDict := alookupD rd "data" (.dict [])
      match alookup cd "schema" with
      | some sch => validate_schema testId respJson sch
      | none => pure ()
      let mErrs ← mandRun dataDict (asListD (alookupD cd "mandatory_fields" (.list [])))
      let tErrs ← ftRun dataDict (asDictD (alookupD cd "field_types" (.dict [])))
      .ok (some (mErrs ++ tErrs))
    | other =>
      .error (.typeExc ("'" ++ pyTypeName other ++ "' object has no attribute 'get'"))
  | .str s =>
    if strIn s (jsonDumpsC respJson) then .ok (some [])
    else .ok (some ["Expected message not found: " ++ s])
  | _ => .ok none

/-- The candidate loop plus the final `assert matched, ...`. -/
def valLoop (testId : String) (respJson : PyVal) :
    List PyVal → List String → Except PyExc Unit
  | [], acc =>
    .error (.assertExc (testId ++ " | Response validation failed: " ++
      pyRepr (.list (acc.map PyVal.str))))
  | c :: rest, acc =>
    match evalCandidate testId respJson c with
    | .error e => .error e
    | .ok (some []) => .ok ()
    | .ok (some errs) => valLoop testId respJson rest (acc ++ errs)
    | .ok none => valLoop testId respJson rest acc

/-- `new.py:validate_response`: a non-list `expected_response` is
wrapped into a one-element candidate list. -/
def validate_response (testId : String) (respJson expectedResponseOptions : PyVal) :
    Except PyExc Unit :=
  let opts := match expectedResponseOptions with
    | .list l => l
    | v => [v]
  valLoop testId respJson opts []

/-- The discrepancies of one candidate (empty for a match, an ignored
candidate, or a raising one); derived from `evalCandidate` to state the
"all candidates' discrepancies are reported together" property. -/
def candErrsOf (testId : String) (respJson cand : PyVal) : List String :=
  match evalCandidate testId respJson cand with
  | .ok (some errs) => errs
  | _ => []

def allCandErrs (testId : String) (respJson : PyVal) (cands : List PyVal) : List String :=
  (cands.map (candErrsOf testId respJson)).flatten

def exceptOk {ε α : Type} : Except ε α → Bool
  | .ok _ => true
  | .error _ => false

/-! ## The per-file test function `new.py:test_api_from_json` -/

/-- One declarative case of the pytest variant.  `body` stands for the
`body or request_body or payload or {}` chain. -/
structure NewCase where
  test_id : Option String
  endpoint : Option String
  api_endpoint : Option String
  method : Option String
  headers : List (String × String)
  body : PyVal
  query_params : List (String × String)
  path_params : List (String × PyVal)
  auth_token : Option String
  expected_status : Option Int
  expected_response : PyVal

/-- One suite file of the pytest variant (`base_url` defaults to `""`
when absent). -/
structure NewFile where
  base_url : String
  method : Option String
  headers : List (String × String)
  tokens : List (String × String)
  test_cases : List NewCase

/-- The `SUMMARY` global of `new.py` (`failed` is declared but never
incremented by the shown code; pytest tracks failures itself). -/
structure NewSummary where
  total : Nat
  passed : Nat
  failed : Nat
  skipped : Nat
  times : List (String × Nat × String)
deriving DecidableEq

def NEW_SUMMARY_INIT : NewSummary :=
  { total := 0, passed := 0, failed := 0, skipped := 0, times := [] }

/-- One `requests.request` outcome in the pytest variant (no retry; a
raised transport exception propagates out of the test function before
any time is measured). -/
inductive NewAttempt where
  | resp (status : Int) (jsonBody : Option PyVal) (elapsedMs : Nat)
  | exc (msg : String)

/-- How the test function stopped early: `pytest.skip`, a failed
assertion, a type error, or a propagated transport exception.  pytest
catches each of these at the granularity of the whole per-file test
function. -/
inductive NewAbort where
  | skipA (msg : String)
  | assertA (msg : String)
  | typeA (msg : String)
  | transportA (msg : String)
deriving DecidableEq

/-- One iteration of the `for idx, case in enumerate(...)` loop of
`test_api_from_json` (lines 150-206).  Mutations made before a raise
(the `total`/`skipped` increments, the `times` append) persist, so an
abort carries the updated summary. -/
def newCaseStep (filename : String) (fileMethod : Option String)
    (fileHeaders tokens : List (String × String)) (baseUrl : String)
    (attempt : NewAttempt) (idx : Nat) (c : NewCase) (st : NewSummary) :
    Except (NewSummary × NewAbort) NewSummary :=
  let st1 := { st with total := st.total + 1 }
  let testId := c.test_id.getD (filename ++ "_" ++ pad3 idx)
  let endpoint0 := pyOrOS c.endpoint c.api_endpoint
  if !epTruthy endpoint0 then
    .error ({ st1 with skipped := st1.skipped + 1 },
      .skipA (testId ++ " skipped: 'endpoint' missing in JSON"))
  else
    let ep := endpoint0.getD ""
    let _method := strUpper (c.method.getD (fileMethod.getD "POST"))
    let headers0 := dictSet (dictMerge fileHeaders c.headers) "Accept" "application/json"
    let ep1 := substPath ep c.path_params
    let url := baseUrl ++ ep1
    let tokenKey := c.auth_token.getD "valid"
    let _headers1 := apply_auth_new tokens tokenKey headers0
    match attempt with
    | .exc m => .error (st1, .transportA m)
    | .resp status body elapsed =>
      let st2 := { st1 with times := st1.times ++ [(testId, elapsed, url)] }
      let respJson := body.getD (.dict [])
      let statusOk : Bool := match c.expected_status with
        | some es => !(es != 0 && status != es)
        | none => true
      if !statusOk then
        match c.expected_status with
        | some es =>
          .error (st2, .assertA (testId ++ " | Expected " ++ toString es ++
            ", got " ++ toString status))
        | none => .ok st2
      else
        if pyTruthy c.expected_response then
          match validate_response testId respJson c.expected_response with
          | .error (.assertExc m) => .error (st2, .assertA m)
          | .error (.typeExc m) => .error (st2, .typeA m)
          | .ok _ => .ok { st2 with passed := st2.passed + 1 }
        else .ok { st2 with passed := st2.passed + 1 }

/-- The case loop: the first raise ends the whole test function, so
every case after it in the same file is neither executed nor
recorded. -/
def newRunCases (filename : String) (fileMethod : Option String)
    (fileHeaders tokens : List (String × String)) (baseUrl : String)
    (attempts : Nat → NewAttempt) (idx : Nat) (cs : List NewCase)
    (st : NewSummary) : NewSummary × Option NewAbort :=
  match cs with
  | [] => (st, none)
  | c :: rest =>
    match newCaseStep filename fileMethod fileHeaders tokens baseUrl (attempts idx)
        idx c st with
    | .ok st2 => newRunCases filename fileMethod fileHeaders tokens baseUrl attempts
        (idx + 1) rest st2
    | .error (st2, ab) => (st2, some ab)

/-- `new.py:test_api_from_json` for one parametrized file
(`assert base_url` first, then the case loop). -/
def newRunFile (filename : String) (f : NewFile) (attempts : Nat → NewAttempt)
    (st : NewSummary) : NewSummary × Option NewAbort :=
  let baseUrl := rstripSlashStr f.base_url
  if baseUrl == "" then
    (st, some (.assertA (filename ++ ".json must have 'base_url'")))
  else
    newRunCases filename f.method f.headers f.tokens baseUrl attempts 1 f.test_cases st

/-- The whole pytest session: one `test_api_from_json` invocation per
discovered file, each invocation's abort caught by pytest so the next
file's invocation still runs against the shared `SUMMARY`. -/
def newRunAll (files : List (String × NewFile × (Nat → NewAttempt)))
    (st : NewSummary) : NewSummary :=
  files.foldl (fun s fd => (newRunFile fd.1 fd.2.1 fd.2.2 s).1) st

/-! ## Helper lemmas -/

theorem isPrefixOf_self (l : List Char) : l.isPrefixOf l = true := by
  induction l with
  | nil => rfl
  | cons c r ih => simp [List.isPrefixOf, ih]

theorem listIsInfix_self (l : List Char) : listIsInfix l l = true := by
  cases l with
  | nil => rfl
  | cons c r => simp [listIsInfix, isPrefixOf_self]

theorem strIn_self (s : String) : strIn s s = true :=
  listIsInfix_self s.data

theorem contains_iff_mem (l : List String) (a : String) : l.contains a = true ↔ a ∈ l := by
  unfold List.contains
  exact List.elem_iff

theorem alookup_dictPop_self {α : Type} (l : List (String × α)) (k : String) :
    alookup (dictPop l k) k = none := by
  induction l with
  | nil => rfl
  | cons kv rest ih =>
    rcases kv with ⟨k1, v1⟩
    by_cases h : k1 = k
    · have hb : (k1 != k) = false := by simp [bne, h]
      simp only [dictPop, List.filter_cons, hb, Bool.false_eq_true, if_false]
      simpa [dictPop] using ih
    · have hb : (k1 != k) = true := bne_iff_ne.mpr h
      have hbq : (k1 == k) = false := beq_eq_false_iff_ne.mpr h
      simp only [dictPop, List.filter_cons, hb, if_true, alookup, hbq,
        Bool.false_eq_true, if_false]
      simpa [dictPop] using ih

theorem alookup_dictPop_preserve_none {α : Type} (l : List (String × α)) (k k' : String)
    (h : alookup l k = none) : alookup (dictPop l k') k = none := by
  induction l with
  | nil => rfl
  | cons kv rest ih =>
    rcases kv with ⟨k1, v1⟩
    have hk1 : (k1 == k) = false := by
      by_cases hq : k1 = k
      · exfalso
        simp [alookup, hq] at h
      · exact beq_eq_false_iff_ne.mpr hq
    have hrest : alookup rest k = none := by
      simpa [alookup, hk1] using h
    by_cases h2 : k1 = k'
    · have hb2 : (k1 != k') = false := by simp [bne, h2]
      simp only [dictPop, List.filter_cons, hb2, Bool.false_eq_true, if_false]
      simpa [dictPop] using ih hrest
    · have hb2 : (k1 != k') = true := bne_iff_ne.mpr h2
      simp only [dictPop, List.filter_cons, hb2, if_true, alookup, hk1,
        Bool.false_eq_true, if_false]
      simpa [dictPop] using ih hrest

/-! ## Claim C3 — header redaction -/

/-- C3 counterexample: the claim's sensitive set contains
`x-id-token`, but `new.py`'s redaction function leaves an
`X-ID-Token` header's value untouched, so the claim is false as
stated for that variant. -/
theorem c3_counterexample :
    strLower "X-ID-Token" ∈ SENSITIVE_ROLE ∧
    new_redact_headers [("X-ID-Token", "s3cr3t")] = [("X-ID-Token", "s3cr3t")] ∧
    ("s3cr3t" : String) ≠ "***redacted***" := by
  refine ⟨by decide, rfl, by decide⟩

/-- C3 (amended): each variant redacts exactly its own sensitive set —
`Role_based.py` the five names including `x-id-token`, `new.py` only
the four without it; in both, every case-insensitively matching header
value becomes the fixed marker and every other header passes through
unchanged. -/
theorem c3_redaction :
    (∀ (hs : List (String × String)) (k v : String), (k, v) ∈ redact_headers hs →
      k ≠ "" → strLower k ∈ SENSITIVE_ROLE → v = "***redacted***") ∧
    (∀ (hs : List (String × String)) (k v : String), (k, v) ∈ hs →
      ¬(k ≠ "" ∧ strLower k ∈ SENSITIVE_ROLE) → (k, v) ∈ redact_headers hs) ∧
    (∀ (hs : List (String × String)) (k v : String), (k, v) ∈ new_redact_headers hs →
      strLower k ∈ SENSITIVE_NEW → v = "***redacted***") ∧
    (∀ (hs : List (String × String)) (k v : String), (k, v) ∈ hs →
      strLower k ∉ SENSITIVE_NEW → (k, v) ∈ new_redact_headers hs) := by
  refine ⟨?_, ?_, ?_, ?_⟩
  · intro hs k v hmem hk hsens
    rcases List.mem_map.mp hmem with ⟨⟨k1, v1⟩, _, heq⟩
    simp only at heq
    split at heq
    next hcond =>
      injection heq with h1 h2
      exact h2.symm
    next hcond =>
      injection heq with h1 h2
      refine absurd ?_ hcond
      rw [h1, Bool.and_eq_true]
      exact ⟨bne_iff_ne.mpr hk, (contains_iff_mem _ _).mpr hsens⟩
  · intro hs k v hmem hns
    refine List.mem_map.mpr ⟨(k, v), hmem, ?_⟩
    have hc : (k != "" && SENSITIVE_ROLE.contains (strLower k)) = false := by
      by_cases hk : k = ""
      · subst hk; simp
      · have hm : strLower k ∉ SENSITIVE_ROLE := fun hm => hns ⟨hk, hm⟩
        have hcf : SENSITIVE_ROLE.contains (strLower k) = false := by
          cases hh : SENSITIVE_ROLE.contains (strLower k) with
          | false => rfl
          | true => exact absurd ((contains_iff_mem _ _).mp hh) hm
        rw [hcf, Bool.and_false]
    show (if (k != "" && SENSITIVE_ROLE.contains (strLower k)) = true
      then (k, "***redacted***") else (k, v)) = (k, v)
    exact if_neg (by rw [hc]; simp)
  · intro hs k v hmem hsens
    rcases List.mem_map.mp hmem with ⟨⟨k1, v1⟩, _, heq⟩
    simp only at heq
    split at heq
    next hcond =>
      injection heq with h1 h2
      exact h2.symm
    next hcond =>
      injection heq with h1 h2
      refine absurd ?_ hcond
      rw [h1]
      exact (contains_iff_mem _ _).mpr hsens
  · intro hs k v hmem hns
    refine List.mem_map.mpr ⟨(k, v), hmem, ?_⟩
    have hc : SENSITIVE_NEW.contains (strLower k) = false := by
      cases hh : SENSITIVE_NEW.contains (strLower k) with
      | false => rfl
      | true => exact absurd ((contains_iff_mem _ _).mp hh) hns
    show (if SENSITIVE_NEW.contains (strLower k) = true
      then (k, "***redacted***") else (k, v)) = (k, v)
    exact if_neg (by rw [hc]; simp)

/-- C3 witness: a concrete `Authorization` header is redacted by the
role-based variant and a concrete non-sensitive header passes through
the pytest variant. -/
theorem c3_witness :
    ("***redacted***" : String) = "***redacted***" ∧
    ("X-Request-Id", "r1") ∈ new_redact_headers [("X-Request-Id", "r1")] := by
  constructor
  · exact c3_redaction.1 [("Authorization", "x")] "Authorization" "***redacted***"
      (by decide) (by decide) (by decide)
  · exact c3_redaction.2.2.2 [("X-Request-Id", "r1")] "X-Request-Id" "r1"
      (by decide) (by decide)

/-! ## Claim C5 — the `"empty"` auth-token sentinel -/

/-- C5 counterexample: in `new.py`, a suite whose `tokens` map binds the
key `"empty"` to a non-empty string makes the sentinel *set* the
`Authorization` header instead of removing it. -/
theorem c5_counterexample :
    alookup (apply_auth_new [("empty", "tok123")] "empty" []) "Authorization" =
      some "Bearer tok123" := rfl

/-- C5 (amended): with `auth_token = "empty"`, the role-based variant's
resolved headers contain no `Authorization` and no `X-ID-Token` key,
regardless of incoming headers, of the pre-fetched tokens and of the
suite's `tokens` map; the pytest variant removes `Authorization`
provided the suite's `tokens` map has no truthy entry under
`"empty"`. -/
theorem c5_empty_sentinel :
    (∀ (allT : String → TokenSet) (td : List (String × String)) (hF : String → Int)
      (hs : List (String × String)),
      alookup (apply_auth_role allT td hF "empty" hs) "Authorization" = none ∧
      alookup (apply_auth_role allT td hF "empty" hs) "X-ID-Token" = none) ∧
    (∀ (tokens hs : List (String × String)), truthyGet tokens "empty" = none →
      alookup (apply_auth_new tokens "empty" hs) "Authorization" = none) := by
  constructor
  · intro allT td hF hs
    have hkeys : ALL_TOKENS_KEYS.contains "empty" = false := by decide
    constructor
    · simp only [apply_auth_role, hkeys, Bool.false_eq_true, if_false, beq_self_eq_true,
        if_true]
      exact alookup_dictPop_preserve_none _ _ _ (alookup_dictPop_self hs "Authorization")
    · simp only [apply_auth_role, hkeys, Bool.false_eq_true, if_false, beq_self_eq_true,
        if_true]
      exact alookup_dictPop_self _ "X-ID-Token"
  · intro tokens hs htr
    unfold apply_auth_new
    rcases hl : alookup tokens "empty" with _ | v
    · simp only [beq_self_eq_true, if_true]
      exact alookup_dictPop_self hs "Authorization"
    · have hv : (v != "") = false := by
        cases hvb : (v != "") with
        | false => rfl
        | true =>
          exfalso
          unfold truthyGet at htr
          rw [hl] at htr
          simp [hvb] at htr
      simp only [hv, Bool.false_eq_true, if_false, beq_self_eq_true, if_true]
      exact alookup_dictPop_self hs "Authorization"

/-- C5 witness: concrete headers carrying both auth headers lose them
under the sentinel in both variants. -/
theorem c5_witness :
    (alookup (apply_auth_role (fun _ => ⟨"a", "i", "r"⟩) [("expired", "e")] (fun _ => 3)
        "empty" [("Authorization", "x"), ("X-ID-Token", "y")]) "Authorization" = none) ∧
    (alookup (apply_auth_new [("valid", "t")] "empty" [("Authorization", "x")])
        "Authorization" = none) := by
  constructor
  · exact (c5_empty_sentinel.1 (fun _ => ⟨"a", "i", "r"⟩) [("expired", "e")] (fun _ => 3)
      [("Authorization", "x"), ("X-ID-Token", "y")]).1
  · exact c5_empty_sentinel.2 [("valid", "t")] [("Authorization", "x")] rfl

/-! ## Claim C9 — the deterministic dummy id token -/

/-- C9 counterexample: the synthesized identifier is a function of the
process's string-hash function (CPython salts it per process via
`PYTHONHASHSEED`), so two runs with different hash functions can give
different values for the same key — refuting cross-run determinism. -/
theorem c9_counterexample :
    deterministic_dummy_id_token (fun _ => 0) "expired" ≠
      deterministic_dummy_id_token (fun _ => 1) "expired" := by
  decide

/-- C9 (amended): within one process (one hash function) the
identifier is a deterministic function of the key, and it always has
the shape `dummy-id-<n>` with `n < 10^12`. -/
theorem c9_determinism :
    (∀ (pyHash : String → Int) (k1 k2 : String), k1 = k2 →
      deterministic_dummy_id_token pyHash k1 = deterministic_dummy_id_token pyHash k2) ∧
    (∀ (pyHash : String → Int) (k : String), ∃ n : Nat, n < 10 ^ 12 ∧
      deterministic_dummy_id_token pyHash k = "dummy-id-" ++ toString n) := by
  constructor
  · intro pyHash k1 k2 e
    rw [e]
  · intro pyHash k
    exact ⟨(pyHash k).natAbs % 10 ^ 12, Nat.mod_lt _ (by norm_num), rfl⟩

/-- C9 witness. -/
theorem c9_witness :
    deterministic_dummy_id_token (fun _ => 5) "expired" =
      deterministic_dummy_id_token (fun _ => 5) "expired" :=
  c9_determinism.1 (fun _ => 5) "expired" "expired" rfl

/-! ## Claim C4 — the partial-match toggle is superset-permissive -/

theorem smErrors_mono (respJson : PyVal) (expd : List (String × PyVal))
    (h : smErrors false respJson expd = []) : smErrors true respJson expd = [] := by
  rw [smErrors, List.filterMap_eq_nil_iff] at h ⊢
  intro key hk
  have hkey := h key hk
  rcases hl : alookup expd key with _ | ev
  · simp [hl]
  · rw [hl] at hkey
    simp only at hkey ⊢
    by_cases he : (pyStrip (pyStr ev) == pyStrip (pyStr (dictGetD respJson key (.str "")))) = true
    · have heq : pyStrip (pyStr ev) = pyStrip (pyStr (dictGetD respJson key (.str ""))) :=
        beq_iff_eq.mp he
      simp [heq, strIn_self]
    · simp [he] at hkey

theorem nestedErrors_mono (respJson : PyVal) (nks : List (String × PyVal))
    (h : nestedErrors false respJson nks = []) : nestedErrors true respJson nks = [] := by
  rw [nestedErrors, List.filterMap_eq_nil_iff] at h ⊢
  intro kv hk
  have hkey := h kv hk
  rcases hr : resolveNested respJson (splitChar '.' kv.1) with _ | v
  · rw [hr] at hkey
    simp at hkey
  · rw [hr] at hkey
    cases v with
    | null => simp at hkey
    | str s =>
      simp only at hkey ⊢
      by_cases he : (pyStr kv.2 == pyStr (PyVal.str s)) = true
      · have heq := beq_iff_eq.mp he
        simp [heq, strIn_self]
      · simp [he] at hkey
    | int n =>
      simp only at hkey ⊢
      by_cases he : (pyStr kv.2 == pyStr (PyVal.int n)) = true
      · have heq := beq_iff_eq.mp he
        simp [heq, strIn_self]
      · simp [he] at hkey
    | bool b =>
      simp only at hkey ⊢
      by_cases he : (pyStr kv.2 == pyStr (PyVal.bool b)) = true
      · have heq := beq_iff_eq.mp he
        simp [heq, strIn_self]
      · simp [he] at hkey
    | list xs =>
      simp only at hkey ⊢
      by_cases he : (pyStr kv.2 == pyStr (PyVal.list xs)) = true
      · have heq := beq_iff_eq.mp he
        simp [heq, strIn_self]
      · simp [he] at hkey
    | dict d =>
      simp only at hkey ⊢
      by_cases he : (pyStr kv.2 == pyStr (PyVal.dict d)) = true
      · have heq := beq_iff_eq.mp he
        simp [heq, strIn_self]
      · simp [he] at hkey

/-- C4: any validation that succeeds under exact matching also
succeeds when the partial-match toggle is enabled — and the converse
fails: `expected "ok"` against actual `"OK done"` passes only under
partial matching. -/
theorem c4_partial_superset :
    (∀ (respJson expectedResponse : PyVal) (qc : Option String) (tt : String)
      (nks : List (String × PyVal)),
      (validate_response_simple false respJson expectedResponse qc tt nks).1 = true →
      (validate_response_simple true respJson expectedResponse qc tt nks).1 = true) ∧
    ((validate_response_simple true (.dict [("status", .str "OK done")])
        (.dict [("status", .str "ok")]) none "" []).1 = true ∧
      (validate_response_simple false (.dict [("status", .str "OK done")])
        (.dict [("status", .str "ok")]) none "" []).1 = false) := by
  constructor
  · intro respJson expectedResponse qc tt nks h
    cases respJson with
    | dict rd =>
      rw [validate_response_simple] at h ⊢
      simp only [List.isEmpty_iff] at h ⊢
      rw [List.append_eq_nil, List.append_eq_nil] at h
      rcases h with ⟨⟨hsm, hct⟩, hnk⟩
      rw [List.append_eq_nil, List.append_eq_nil]
      exact ⟨⟨smErrors_mono _ _ hsm, hct⟩, nestedErrors_mono _ _ hnk⟩
    | str s => simp [validate_response_simple] at h
    | int n => simp [validate_response_simple] at h
    | bool b => simp [validate_response_simple] at h
    | null => simp [validate_response_simple] at h
    | list xs => simp [validate_response_simple] at h
  · exact ⟨by decide, by decide⟩

/-- C4 witness: a concretely passing exact validation also passes the
partial one. -/
theorem c4_witness :
    (validate_response_simple true (.dict [("status", .str "ok")])
      (.dict [("status", .str "ok")]) none "" []).1 = true :=
  c4_partial_superset.1 (.dict [("status", .str "ok")]) (.dict [("status", .str "ok")])
    none "" [] (by decide)

/-! ## The retry loop (claims C1 and C7) -/

/-- When every call raises, the loop walks through all remaining
attempts: starting at counter `i` with `k + 1` iterations left it ends
exhausted at attempt `i + k`. -/
theorem caseLoopAux_all_exc (msg : Nat → String) (el : Nat → Nat) :
    ∀ (k i : Nat), caseLoopAux (fun j => .exc (msg j) (el j)) i (k + 1) =
      .exhausted (msg (i + k)) (i + k + 1) (i + k) := by
  intro k
  induction k with
  | zero =>
    intro i
    rfl
  | succ k ih =>
    intro i
    have harr : i + 1 + k = i + (k + 1) := by omega
    calc caseLoopAux (fun j => .exc (msg j) (el j)) i (k + 1 + 1)
        = caseLoopAux (fun j => .exc (msg j) (el j)) (i + 1) (k + 1) := rfl
      _ = .exhausted (msg (i + 1 + k)) (i + 1 + k + 1) (i + 1 + k) := ih (i + 1)
      _ = .exhausted (msg (i + (k + 1))) (i + (k + 1) + 1) (i + (k + 1)) := by
          rw [harr]

theorem caseLoop_all_exc (msg : Nat → String) (el : Nat → Nat) (maxRetries : Nat) :
    caseLoop (fun j => .exc (msg j) (el j)) maxRetries =
      .exhausted (msg maxRetries) (maxRetries + 1) maxRetries := by
  unfold caseLoop
  simpa using caseLoopAux_all_exc msg el maxRetries 0

/-- When the calls before index `k` raise and call `k` responds, the
loop succeeds at that response after `k + 1` calls and `k` sleeps. -/
theorem caseLoopAux_first_resp (att : Nat → Attempt) (k : Nat) (r : HttpResp) (e : Nat)
    (hraise : ∀ i, i < k → ∃ m em, att i = .exc m em) (hk : att k = .resp r e) :
    ∀ (rem i : Nat), i ≤ k → k < i + rem → caseLoopAux att i rem =
      .success r e (k + 1) k := by
  intro rem
  induction rem with
  | zero =>
    intro i h1 h2
    omega
  | succ rem ih =>
    intro i h1 h2
    by_cases hik : i = k
    · have hatt : att i = .resp r e := by rw [hik]; exact hk
      have hgoal : caseLoopAux att i (rem + 1) = .success r e (i + 1) i := by
        unfold caseLoopAux
        rw [hatt]
      rw [hgoal, hik]
    · have hlt : i < k := lt_of_le_of_ne h1 hik
      rcases hraise i hlt with ⟨m, em, hm⟩
      cases rem with
      | zero => omega
      | succ t =>
        have hstep : caseLoopAux att i (t + 1 + 1) = caseLoopAux att (i + 1) (t + 1) := by
          conv_lhs => unfold caseLoopAux
          rw [hm]
        rw [hstep]
        exact ih (i + 1) (by omega) (by omega)

theorem caseLoop_first_resp (att : Nat → Attempt) (k maxRetries : Nat) (r : HttpResp)
    (e : Nat) (hraise : ∀ i, i < k → ∃ m em, att i = .exc m em) (hk : att k = .resp r e)
    (hle : k ≤ maxRetries) :
    caseLoop att maxRetries = .success r e (k + 1) k := by
  unfold caseLoop
  exact caseLoopAux_first_resp att k r e hraise hk (maxRetries + 1) 0 (by omega) (by omega)

/-- C1: a GET case with a resolvable endpoint whose every HTTP call
raises a transport exception makes exactly `MAX_RETRIES + 1` calls with
a sleep between consecutive calls, records one FAIL result whose
details carry the (escaped) exception text and whose status code is the
`ERROR` sentinel, appends nothing to the perf aggregate, and the loop
over cases continues with the next case. -/
theorem c1_retry_exhaustion (ctx : RoleCtx) (stem baseUrl dm : String)
    (fh td : List (String × String)) (msg : Nat → String) (el : Nat → Nat) (idx : Nat)
    (tid d ep : String) (hep : ep ≠ "") (mth tt : Option String)
    (hmeth : strUpper (mth.getD dm) = "GET") (chs qps : List (String × String))
    (pps : List (String × PyVal)) (atk : Option String) (es : Option Int)
    (er ero : PyVal) (nks : List (String × PyVal)) (ect : Option String) :
    runCaseOut ctx stem baseUrl dm fh td (fun i => .exc (msg i) (el i)) idx
        ⟨some tid, some d, tt, mth, some ep, none, chs, qps, pps, atk, es, er,
          ero, nks, ect⟩ =
      { entry :=
          { id := tid, desc := d, status_code := .errorS, result := "FAIL",
            details := "<pre>Exception: " ++ htmlEscape (msg ctx.maxRetries) ++ "</pre>",
            api_name := "GET " ++ substPath ep pps, method := "GET",
            endpoint := some (substPath ep pps) },
        kind := .failedK, perfAdd := [], slowAdd := [],
        attemptsMade := ctx.maxRetries + 1, sleeps := ctx.maxRetries } ∧
    (∀ st : RunState,
      (processCase ctx stem baseUrl dm fh td (fun i => .exc (msg i) (el i)) idx
          ⟨some tid, some d, tt, mth, some ep, none, chs, qps, pps, atk, es, er,
            ero, nks, ect⟩ st).summary.results =
        st.summary.results ++
          [(runCaseOut ctx stem baseUrl dm fh td (fun i => .exc (msg i) (el i)) idx
            ⟨some tid, some d, tt, mth, some ep, none, chs, qps, pps, atk, es,
              er, ero, nks, ect⟩).entry] ∧
      (processCase ctx stem baseUrl dm fh td (fun i => .exc (msg i) (el i)) idx
          ⟨some tid, some d, tt, mth, some ep, none, chs, qps, pps, atk, es, er,
            ero, nks, ect⟩ st).summary.failed = st.summary.failed + 1) ∧
    (∀ (rest : List RoleCase) (attF : Nat → Nat → Attempt) (st : RunState) (c : RoleCase),
      runCasesAux ctx stem baseUrl dm fh td attF idx (c :: rest) st =
        runCasesAux ctx stem baseUrl dm fh td attF (idx + 1) rest
          (processCase ctx stem baseUrl dm fh td (attF idx) idx c st)) := by
  have h1 : (ep != "") = true := bne_iff_ne.mpr hep
  have hloop : caseLoop (fun i => Attempt.exc (msg i) (el i)) ctx.maxRetries =
      .exhausted (msg ctx.maxRetries) (ctx.maxRetries + 1) ctx.maxRetries :=
    caseLoop_all_exc msg el ctx.maxRetries
  have hout : runCaseOut ctx stem baseUrl dm fh td (fun i => .exc (msg i) (el i)) idx
      ⟨some tid, some d, tt, mth, some ep, none, chs, qps, pps, atk, es, er,
        ero, nks, ect⟩ =
      { entry :=
          { id := tid, desc := d, status_code := .errorS, result := "FAIL",
            details := "<pre>Exception: " ++ htmlEscape (msg ctx.maxRetries) ++ "</pre>",
            api_name := "GET " ++ substPath ep pps, method := "GET",
            endpoint := some (substPath ep pps) },
        kind := .failedK, perfAdd := [], slowAdd := [],
        attemptsMade := ctx.maxRetries + 1, sleeps := ctx.maxRetries } := by
    simp only [runCaseOut, pyOrOS, epTruthy, h1, hloop]
    simp [hmeth, hep]
  refine ⟨hout, ?_, ?_⟩
  · intro st
    constructor
    · simp only [processCase, hout]
    · simp only [processCase, hout]
      simp
  · intro rest attF st c
    rfl

/-- C1 witness: a concrete two-retry run. -/
theorem c1_witness :
    (runCaseOut ⟨false, 2, "", fun _ => ⟨"", "", ""⟩, fun _ => 0⟩ "s" "http://x" "GET"
        [] [] (fun _ => .exc "boom" 7) 1
        ⟨some "T1", some "d", none, some "GET", some "/ping", none, [], [], [], none,
          none, .null, .null, [], none⟩).attemptsMade = 3 := by
  have h := (c1_retry_exhaustion ⟨false, 2, "", fun _ => ⟨"", "", ""⟩, fun _ => 0⟩ "s"
    "http://x" "GET" [] [] (fun _ => "boom") (fun _ => 7) 1 "T1" "d" "/ping" (by decide)
    (some "GET") none rfl [] [] [] none none .null .null [] none).1
  rw [h]

/-! ## Claim C7 — what feeds the perf aggregate -/

/-- C7 counterexample: a case whose three HTTP calls all raise makes
three attempts but appends nothing to `PERF_STATS` — the elapsed time
of a raising attempt is never recorded (the `PERF_STATS.append` sits
after `requests.get` inside the `try`). -/
theorem c7_counterexample :
    (runCaseOut ⟨false, 2, "", fun _ => ⟨"", "", ""⟩, fun _ => 0⟩ "s" "http://x" "GET"
        [] [] (fun _ => .exc "boom" 7) 1
        ⟨some "T7", some "d", none, some "GET", some "/ping", none, [], [], [], none,
          none, .null, .null, [], none⟩).attemptsMade = 3 ∧
    (processCase ⟨false, 2, "", fun _ => ⟨"", "", ""⟩, fun _ => 0⟩ "s" "http://x" "GET"
        [] [] (fun _ => .exc "boom" 7) 1
        ⟨some "T7", some "d", none, some "GET", some "/ping", none, [], [], [], none,
          none, .null, .null, [], none⟩ RUNSTATE_INIT).perf = [] := by
  exact ⟨rfl, rfl⟩

/-- C7 (amended): an attempt that yields an HTTP response has its
elapsed milliseconds appended to the perf aggregate regardless of the
case's pass/fail outcome, while attempts that raise a transport
exception append nothing. -/
theorem c7_perf_recording (ctx : RoleCtx) (stem baseUrl dm : String)
    (fh td : List (String × String)) (k : Nat) (hk : k ≤ ctx.maxRetries)
    (msg : Nat → String) (el : Nat → Nat) (r : HttpResp) (e : Nat) (idx : Nat)
    (tid d ep : String) (hep : ep ≠ "") (mth tt : Option String)
    (hmeth : strUpper (mth.getD dm) = "GET") (chs qps : List (String × String))
    (pps : List (String × PyVal)) (atk : Option String) (es : Option Int)
    (er ero : PyVal) (nks : List (String × PyVal)) (ect : Option String) :
    (runCaseOut ctx stem baseUrl dm fh td
        (fun i => if i < k then Attempt.exc (msg i) (el i) else Attempt.resp r e) idx
        ⟨some tid, some d, tt, mth, some ep, none, chs, qps, pps, atk, es, er,
          ero, nks, ect⟩).perfAdd = [e] ∧
    (∀ st : RunState,
      (processCase ctx stem baseUrl dm fh td
          (fun i => if i < k then Attempt.exc (msg i) (el i) else Attempt.resp r e) idx
          ⟨some tid, some d, tt, mth, some ep, none, chs, qps, pps, atk, es, er,
            ero, nks, ect⟩ st).perf = st.perf ++ [e]) ∧
    (runCaseOut ctx stem baseUrl dm fh td (fun i => .exc (msg i) (el i)) idx
        ⟨some tid, some d, tt, mth, some ep, none, chs, qps, pps, atk, es, er,
          ero, nks, ect⟩).perfAdd = [] ∧
    (∀ st : RunState,
      (processCase ctx stem baseUrl dm fh td (fun i => .exc (msg i) (el i)) idx
          ⟨some tid, some d, tt, mth, some ep, none, chs, qps, pps, atk, es, er,
            ero, nks, ect⟩ st).perf = st.perf) := by
  have h1 : (ep != "") = true := bne_iff_ne.mpr hep
  have hloopS : caseLoop
      (fun i => if i < k then Attempt.exc (msg i) (el i) else Attempt.resp r e)
      ctx.maxRetries = .success r e (k + 1) k :=
    caseLoop_first_resp _ k ctx.maxRetries r e
      (fun i hi => ⟨msg i, el i, if_pos hi⟩) (if_neg (lt_irrefl k)) hk
  have hloopE : caseLoop (fun i => Attempt.exc (msg i) (el i)) ctx.maxRetries =
      .exhausted (msg ctx.maxRetries) (ctx.maxRetries + 1) ctx.maxRetries :=
    caseLoop_all_exc msg el ctx.maxRetries
  have hA : (runCaseOut ctx stem baseUrl dm fh td
      (fun i => if i < k then Attempt.exc (msg i) (el i) else Attempt.resp r e) idx
      ⟨some tid, some d, tt, mth, some ep, none, chs, qps, pps, atk, es, er,
        ero, nks, ect⟩).perfAdd = [e] := by
    simp only [runCaseOut, pyOrOS, epTruthy, h1, hloopS]
    simp [hmeth, hep]
  have hB : (runCaseOut ctx stem baseUrl dm fh td (fun i => .exc (msg i) (el i)) idx
      ⟨some tid, some d, tt, mth, some ep, none, chs, qps, pps, atk, es, er,
        ero, nks, ect⟩).perfAdd = [] := by
    simp only [runCaseOut, pyOrOS, epTruthy, h1, hloopE]
    simp [hmeth, hep]
  refine ⟨hA, ?_, hB, ?_⟩
  · intro st
    simp only [processCase, hA]
  · intro st
    simp only [processCase, hB]
    simp

/-- C7 witness: one raising attempt followed by a responding one
records exactly the responding attempt's elapsed time. -/
theorem c7_witness :
    (runCaseOut ⟨false, 2, "", fun _ => ⟨"", "", ""⟩, fun _ => 0⟩ "s" "http://x" "GET"
        [] []
        (fun i => if i < 1 then Attempt.exc "boom" 7
          else Attempt.resp ⟨200, some (.dict []), "", []⟩ 42) 1
        ⟨some "T7b", some "d", none, some "GET", some "/ping", none, [], [], [], none,
          none, .null, .null, [], none⟩).perfAdd = [42] :=
  (c7_perf_recording ⟨false, 2, "", fun _ => ⟨"", "", ""⟩, fun _ => 0⟩ "s" "http://x"
    "GET" [] [] 1 (by decide) (fun _ => "boom") (fun _ => 7) ⟨200, some (.dict []), "", []⟩
    42 1 "T7b" "d" "/ping" (by decide) (some "GET") none rfl [] [] [] none none .null
    .null [] none).1

/-! ## Claim C10 — the summary bookkeeping invariant -/

/-- The invariant of `SUMMARY`: every counted case is exactly one of
passed/failed/skipped and contributes exactly one result entry. -/
def summaryInvariant (st : RunState) : Prop :=
  st.summary.total = st.summary.passed + st.summary.failed + st.summary.skipped ∧
  st.summary.total = st.summary.results.length

theorem processCase_results (ctx : RoleCtx) (stem baseUrl dm : String)
    (fh td : List (String × String)) (attempts : Nat → Attempt) (idx : Nat)
    (c : RoleCase) (st : RunState) :
    (processCase ctx stem baseUrl dm fh td attempts idx c st).summary.results =
      st.summary.results ++
        [(runCaseOut ctx stem baseUrl dm fh td attempts idx c).entry] := by
  simp only [processCase]

theorem processCase_counts (ctx : RoleCtx) (stem baseUrl dm : String)
    (fh td : List (String × String)) (attempts : Nat → Attempt) (idx : Nat)
    (c : RoleCase) (st : RunState) :
    (processCase ctx stem baseUrl dm fh td attempts idx c st).summary.total =
      st.summary.total + 1 ∧
    (processCase ctx stem baseUrl dm fh td attempts idx c st).summary.results.length =
      st.summary.results.length + 1 ∧
    (processCase ctx stem baseUrl dm fh td attempts idx c st).summary.passed +
      (processCase ctx stem baseUrl dm fh td attempts idx c st).summary.failed +
      (processCase ctx stem baseUrl dm fh td attempts idx c st).summary.skipped =
      st.summary.passed + st.summary.failed + st.summary.skipped + 1 := by
  refine ⟨rfl, ?_, ?_⟩
  · simp [processCase]
  · cases hk : (runCaseOut ctx stem baseUrl dm fh td attempts idx c).kind <;>
      simp [processCase, hk] <;> omega

theorem processCase_inv (ctx : RoleCtx) (stem baseUrl dm : String)
    (fh td : List (String × String)) (attempts : Nat → Attempt) (idx : Nat)
    (c : RoleCase) (st : RunState) (h : summaryInvariant st) :
    summaryInvariant (processCase ctx stem baseUrl dm fh td attempts idx c st) := by
  rcases processCase_counts ctx stem baseUrl dm fh td attempts idx c st with ⟨h1, h2, h3⟩
  exact ⟨by rw [h1, h3, h.1], by rw [h1, h2, h.2]⟩

theorem runCasesAux_inv (ctx : RoleCtx) (stem baseUrl dm : String)
    (fh td : List (String × String)) (attF : Nat → Nat → Attempt) :
    ∀ (cs : List RoleCase) (idx : Nat) (st : RunState), summaryInvariant st →
      summaryInvariant (runCasesAux ctx stem baseUrl dm fh td attF idx cs st) := by
  intro cs
  induction cs with
  | nil => intro idx st h; exact h
  | cons c rest ih =>
    intro idx st h
    exact ih (idx + 1) _ (processCase_inv ctx stem baseUrl dm fh td (attF idx) idx c st h)

theorem runFile_inv (ctx : RoleCtx) (stem : String) (file : Option RoleFile)
    (attF : Nat → Nat → Attempt) (st : RunState) (h : summaryInvariant st) :
    summaryInvariant (runFile ctx stem file attF st) := by
  cases file with
  | none => exact h
  | some f => exact runCasesAux_inv ctx stem _ _ f.headers f.tokens attF f.test_cases 1 st h

theorem run_all_tests_inv (ctx : RoleCtx) :
    ∀ (files : List (String × Option RoleFile × (Nat → Nat → Attempt))) (st : RunState),
      summaryInvariant st → summaryInvariant (run_all_tests ctx files st) := by
  intro files
  induction files with
  | nil => intro st h; exact h
  | cons f fs ih =>
    intro st h
    exact ih _ (runFile_inv ctx f.1 f.2.1 f.2.2 st h)

/-- C10: each processed case adds one to `total`, one result entry, and
one to exactly one of the three outcome counters; the invariant
`total = passed + failed + skipped = |results|` is preserved by every
case and holds after any run started from the initial summary. -/
theorem c10_summary_invariant :
    (∀ (ctx : RoleCtx) (stem baseUrl dm : String) (fh td : List (String × String))
      (attempts : Nat → Attempt) (idx : Nat) (c : RoleCase) (st : RunState),
      (processCase ctx stem baseUrl dm fh td attempts idx c st).summary.total =
        st.summary.total + 1 ∧
      (processCase ctx stem baseUrl dm fh td attempts idx c st).summary.results.length =
        st.summary.results.length + 1 ∧
      (processCase ctx stem baseUrl dm fh td attempts idx c st).summary.passed +
        (processCase ctx stem baseUrl dm fh td attempts idx c st).summary.failed +
        (processCase ctx stem baseUrl dm fh td attempts idx c st).summary.skipped =
        st.summary.passed + st.summary.failed + st.summary.skipped + 1) ∧
    (∀ (ctx : RoleCtx) (stem baseUrl dm : String) (fh td : List (String × String))
      (attempts : Nat → Attempt) (idx : Nat) (c : RoleCase) (st : RunState),
      summaryInvariant st →
      summaryInvariant (processCase ctx stem baseUrl dm fh td attempts idx c st)) ∧
    (∀ (ctx : RoleCtx) (files : List (String × Option RoleFile × (Nat → Nat → Attempt))),
      summaryInvariant (run_all_tests ctx files RUNSTATE_INIT)) := by
  refine ⟨processCase_counts, processCase_inv, ?_⟩
  intro ctx files
  exact run_all_tests_inv ctx files RUNSTATE_INIT ⟨rfl, rfl⟩

/-- C10 witness: the invariant concretely holds after one processed
case from the initial state. -/
theorem c10_witness :
    summaryInvariant (processCase ⟨false, 2, "", fun _ => ⟨"", "", ""⟩, fun _ => 0⟩ "s"
      "http://x" "GET" [] [] (fun _ => .resp ⟨200, some (.dict []), "", []⟩ 5) 1
      ⟨some "T10", some "d", none, some "GET", some "/ping", none, [], [], [], none,
        none, .null, .null, [], none⟩ RUNSTATE_INIT) :=
  c10_summary_invariant.2.1 ⟨false, 2, "", fun _ => ⟨"", "", ""⟩, fun _ => 0⟩ "s"
    "http://x" "GET" [] [] (fun _ => .resp ⟨200, some (.dict []), "", []⟩ 5) 1
    ⟨some "T10", some "d", none, some "GET", some "/ping", none, [], [], [], none,
      none, .null, .null, [], none⟩ RUNSTATE_INIT ⟨rfl, rfl⟩

/-! ## Claim C2 — case isolation -/

/-- C2 counterexample: in `new.py`, the first case's failed status
assertion aborts the per-file test function, so the second case of the
same file is neither executed nor recorded (`total` stays 1 of 2); the
second case alone would have passed. -/
theorem c2_counterexample :
    (newRunFile "f" ⟨"http://x", some "GET", [], [],
        [⟨some "N1", some "/a", none, some "GET", [], .null, [], [], none, some 200,
           .null⟩,
         ⟨some "N2", some "/b", none, some "GET", [], .null, [], [], none, some 200,
           .null⟩]⟩
      (fun _ => .resp 500 (some (.dict [])) 5) NEW_SUMMARY_INIT).1.total = 1 ∧
    (newRunFile "f" ⟨"http://x", some "GET", [], [],
        [⟨some "N1", some "/a", none, some "GET", [], .null, [], [], none, some 200,
           .null⟩,
         ⟨some "N2", some "/b", none, some "GET", [], .null, [], [], none, some 200,
           .null⟩]⟩
      (fun _ => .resp 500 (some (.dict [])) 5) NEW_SUMMARY_INIT).2 =
      some (.assertA "N1 | Expected 200, got 500") ∧
    (newRunFile "f" ⟨"http://x", some "GET", [], [],
        [⟨some "N2", some "/b", none, some "GET", [], .null, [], [], none, some 200,
           .null⟩]⟩
      (fun _ => .resp 200 (some (.dict [])) 5) NEW_SUMMARY_INIT).1.passed = 1 := by
  exact ⟨rfl, rfl, rfl⟩

/-- C2 (amended): in the role-based runner every discovered case
contributes its own result entry independently of every other case's
outcome; in the assertion-based variant a case that raises prevents the
later cases of the same file from running, but pytest catches the raise
per file, so the cases of other files still run. -/
theorem c2_case_isolation :
    (∀ (ctx : RoleCtx) (stem baseUrl dm : String) (fh td : List (String × String))
      (attF : Nat → Nat → Attempt) (idx : Nat) (cs : List RoleCase) (st : RunState),
      (runCasesAux ctx stem baseUrl dm fh td attF idx cs st).summary.results =
        st.summary.results ++ caseEntries ctx stem baseUrl dm fh td attF idx cs) ∧
    (∀ (fn : String) (fm : Option String) (fhs tk : List (String × String))
      (bu : String) (att : Nat → NewAttempt) (idx : Nat) (c : NewCase)
      (rest : List NewCase) (st stE : NewSummary) (ab : NewAbort),
      newCaseStep fn fm fhs tk bu (att idx) idx c st = .error (stE, ab) →
      newRunCases fn fm fhs tk bu att idx (c :: rest) st = (stE, some ab)) ∧
    (∀ (f : String × NewFile × (Nat → NewAttempt))
      (fs : List (String × NewFile × (Nat → NewAttempt))) (st : NewSummary),
      newRunAll (f :: fs) st = newRunAll fs (newRunFile f.1 f.2.1 f.2.2 st).1) ∧
    (∀ (ctx : RoleCtx) (f : String × Option RoleFile × (Nat → Nat → Attempt))
      (fs : List (String × Option RoleFile × (Nat → Nat → Attempt))) (st : RunState),
      run_all_tests ctx (f :: fs) st =
        run_all_tests ctx fs (runFile ctx f.1 f.2.1 f.2.2 st)) := by
  refine ⟨?_, ?_, ?_, ?_⟩
  · intro ctx stem baseUrl dm fh td attF idx cs
    induction cs generalizing idx with
    | nil =>
      intro st
      simp [runCasesAux, caseEntries]
    | cons c rest ih =>
      intro st
      show (runCasesAux ctx stem baseUrl dm fh td attF (idx + 1) rest
        (processCase ctx stem baseUrl dm fh td (attF idx) idx c st)).summary.results = _
      rw [ih (idx + 1), processCase_results]
      simp [caseEntries]
  · intro fn fm fhs tk bu att idx c rest st stE ab h
    simp [newRunCases, h]
  · intro f fs st
    rfl
  · intro ctx f fs st
    rfl

/-- C2 witness: the aborting head case concretely determines the
file's outcome whatever follows it. -/
theorem c2_witness :
    newRunCases "f" (some "GET") [] [] "http://x" (fun _ => .resp 500 (some (.dict [])) 5)
      1
      [⟨some "N1", some "/a", none, some "GET", [], .null, [], [], none, some 200,
         .null⟩,
       ⟨some "N2", some "/b", none, some "GET", [], .null, [], [], none, some 200,
         .null⟩]
      NEW_SUMMARY_INIT =
      ({ total := 1, passed := 0, failed := 0, skipped := 0,
         times := [("N1", 5, "http://x/a")] },
        some (.assertA "N1 | Expected 200, got 500")) :=
  c2_case_isolation.2.1 "f" (some "GET") [] [] "http://x"
    (fun _ => .resp 500 (some (.dict [])) 5) 1
    ⟨some "N1", some "/a", none, some "GET", [], .null, [], [], none, some 200, .null⟩
    [⟨some "N2", some "/b", none, some "GET", [], .null, [], [], none, some 200, .null⟩]
    NEW_SUMMARY_INIT
    { total := 1, passed := 0, failed := 0, skipped := 0,
      times := [("N1", 5, "http://x/a")] }
    (.assertA "N1 | Expected 200, got 500") rfl

/-! ## Claim C6 — candidate-list semantics -/

theorem valLoop_short_circuit (tid : String) (resp c : PyVal) (rest : List PyVal)
    (hc : evalCandidate tid resp c = .ok (some [])) :
    ∀ (pre : List PyVal) (acc : List String),
      (∀ c' ∈ pre, ∃ errs, evalCandidate tid resp c' = .ok (some errs) ∧ errs ≠ []) →
      valLoop tid resp (pre ++ c :: rest) acc = .ok () := by
  intro pre
  induction pre with
  | nil =>
    intro acc _
    simp [valLoop, hc]
  | cons p pre' ih =>
    intro acc hpre
    rcases hpre p (by simp) with ⟨errs, he, hne⟩
    cases errs with
    | nil => exact absurd rfl hne
    | cons e es =>
      show valLoop tid resp (p :: (pre' ++ c :: rest)) acc = .ok ()
      rw [valLoop, he]
      exact ih (acc ++ (e :: es)) (fun c' hc' => hpre c' (by simp [hc']))

theorem valLoop_all_fail (tid : String) (resp : PyVal) :
    ∀ (cands : List PyVal) (acc : List String),
      (∀ c ∈ cands, ∃ errs, evalCandidate tid resp c = .ok (some errs) ∧ errs ≠ []) →
      valLoop tid resp cands acc = .error (.assertExc (tid ++
        " | Response validation failed: " ++
        pyRepr (.list ((acc ++ allCandErrs tid resp cands).map PyVal.str)))) := by
  intro cands
  induction cands with
  | nil =>
    intro acc _
    simp [valLoop, allCandErrs]
  | cons c cs ih =>
    intro acc hall
    rcases hall c (by simp) with ⟨errs, he, hne⟩
    cases errs with
    | nil => exact absurd rfl hne
    | cons e es =>
      show valLoop tid resp (c :: cs) acc = _
      rw [valLoop, he]
      show valLoop tid resp cs (acc ++ (e :: es)) = _
      rw [ih (acc ++ (e :: es)) (fun c' hc' => hall c' (by simp [hc']))]
      have hcerr : candErrsOf tid resp c = e :: es := by
        simp [candErrsOf, he]
      simp [allCandErrs, hcerr, List.append_assoc]

theorem valLoop_ok_iff (tid : String) (resp : PyVal) :
    ∀ (cands : List PyVal) (acc : List String),
      (∀ c ∈ cands, ∃ r, evalCandidate tid resp c = .ok r) →
      (valLoop tid resp cands acc = .ok () ↔
        ∃ c ∈ cands, evalCandidate tid resp c = .ok (some [])) := by
  intro cands
  induction cands with
  | nil =>
    intro acc _
    simp [valLoop]
  | cons c cs ih =>
    intro acc hall
    rcases hall c (by simp) with ⟨r, hr⟩
    have hrest : ∀ c' ∈ cs, ∃ r, evalCandidate tid resp c' = .ok r :=
      fun c' hc' => hall c' (by simp [hc'])
    match r with
    | none =>
      rw [show valLoop tid resp (c :: cs) acc = valLoop tid resp cs acc by
        rw [valLoop, hr]]
      rw [ih acc hrest]
      constructor
      · intro ⟨c', hc', he⟩
        exact ⟨c', by simp [hc'], he⟩
      · intro ⟨c', hc', he⟩
        rcases List.mem_cons.mp hc' with h | h
        · subst h
          rw [hr] at he
          simp at he
        · exact ⟨c', h, he⟩
    | some [] =>
      rw [show valLoop tid resp (c :: cs) acc = .ok () by rw [valLoop, hr]]
      simp only [true_iff]
      exact ⟨c, by simp, hr⟩
    | some (e :: es) =>
      rw [show valLoop tid resp (c :: cs) acc = valLoop tid resp cs (acc ++ (e :: es)) by
        rw [valLoop, hr]]
      rw [ih (acc ++ (e :: es)) hrest]
      constructor
      · intro ⟨c', hc', he⟩
        exact ⟨c', by simp [hc'], he⟩
      · intro ⟨c', hc', he⟩
        rcases List.mem_cons.mp hc' with h | h
        · subst h
          rw [hr] at he
          simp at he
        · exact ⟨c', h, he⟩

/-- C6 counterexample: a candidate list whose first candidate carries a
failing embedded schema raises out of validation even though the second
candidate (a literal substring) fully matches — so "passes iff some
candidate fully matches" is false as stated, and evaluation does not
reach the matching candidate. -/
theorem c6_counterexample :
    evalCandidate "T1" (.dict [("a", .str "x")]) (.str "x") = .ok (some []) ∧
    validate_response "T1" (.dict [("a", .str "x")])
        (.list [.dict [("schema", .dict [("type", .str "string")])], .str "x"]) =
      .error (.assertExc ("T1 | Schema validation failed: " ++
        pyRepr (.dict [("a", .str "x")]) ++ " is not of type 'string'")) ∧
    exceptOk (validate_response "T1" (.dict [("a", .str "x")])
        (.list [.dict [("schema", .dict [("type", .str "string")])], .str "x"])) =
      false := by
  exact ⟨rfl, rfl, rfl⟩

/-- C6 (amended): in the assertion variant, provided no candidate's
evaluation raises, validation passes iff some candidate fully matches;
a fully matching candidate short-circuits whatever follows it; when
every candidate fails, the assertion message reports the concatenation
of all candidates' discrepancies in order.  The role-based validator
has no candidate-list support: a list `expected_response` is treated
exactly like the empty expectation. -/
theorem c6_candidate_semantics :
    (∀ (tid : String) (resp : PyVal) (cands : List PyVal),
      (∀ c ∈ cands, ∃ r, evalCandidate tid resp c = .ok r) →
      (validate_response tid resp (.list cands) = .ok () ↔
        ∃ c ∈ cands, evalCandidate tid resp c = .ok (some []))) ∧
    (∀ (tid : String) (resp c : PyVal) (pre rest : List PyVal),
      (∀ c' ∈ pre, ∃ errs, evalCandidate tid resp c' = .ok (some errs) ∧ errs ≠ []) →
      evalCandidate tid resp c = .ok (some []) →
      validate_response tid resp (.list (pre ++ c :: rest)) = .ok ()) ∧
    (∀ (tid : String) (resp : PyVal) (cands : List PyVal),
      (∀ c ∈ cands, ∃ errs, evalCandidate tid resp c = .ok (some errs) ∧ errs ≠ []) →
      validate_response tid resp (.list cands) = .error (.assertExc (tid ++
        " | Response validation failed: " ++
        pyRepr (.list ((allCandErrs tid resp cands).map PyVal.str))))) ∧
    (∀ (allowPartial : Bool) (resp : PyVal) (l : List PyVal) (qc : Option String)
      (tt : String) (nks : List (String × PyVal)),
      validate_response_simple allowPartial resp (.list l) qc tt nks =
        validate_response_simple allowPartial resp (.dict []) qc tt nks) := by
  refine ⟨?_, ?_, ?_, ?_⟩
  · intro tid resp cands h
    exact valLoop_ok_iff tid resp cands [] h
  · intro tid resp c pre rest hpre hc
    exact valLoop_short_circuit tid resp c rest hc pre [] hpre
  · intro tid resp cands h
    have := valLoop_all_fail tid resp cands [] h
    simpa [validate_response] using this
  · intro allowPartial resp l qc tt nks
    cases resp <;> rfl

/-- C6 witness: with two ordinary candidates (one failing dict
expectation, one matching substring) validation concretely passes. -/
theorem c6_witness :
    validate_response "T6" (.dict [("a", .str "hello")])
      (.list [.dict [("mandatory_fields", .list [.str "zzz"])], .str "hello"]) =
      .ok () := by
  have h := c6_candidate_semantics.2.1 "T6" (.dict [("a", .str "hello")]) (.str "hello")
    [.dict [("mandatory_fields", .list [.str "zzz"])]] []
    (by
      intro c' hc'
      simp only [List.mem_singleton] at hc'
      subst hc'
      exact ⟨["Missing mandatory field: zzz"], rfl, by decide⟩)
    rfl
  simpa using h

/-! ## Claim C8 — endpoint-group normalization -/

theorem dropWhile_append_headneg (p : Char → Bool) (x : Char) (r : List Char)
    (hx : p x = false) : ∀ (a : List Char),
    List.dropWhile p (a ++ x :: r) = List.dropWhile p a ++ x :: r := by
  intro a
  induction a with
  | nil =>
    simp [List.dropWhile_cons, hx]
  | cons c a' ih =>
    by_cases hc : p c = true
    · simp [List.dropWhile_cons, hc, ih]
    · have hcf : p c = false := by simpa using hc
      simp [List.dropWhile_cons, hcf]

theorem takeWhile_all (p : Char → Bool) : ∀ (l : List Char),
    (∀ c ∈ l, p c = true) → l.takeWhile p = l := by
  intro l
  induction l with
  | nil => intro _; rfl
  | cons c r ih =>
    intro h
    simp [List.takeWhile_cons, h c (by simp), ih (fun d hd => h d (by simp [hd]))]

theorem pyStripL_append (a Y : List Char) (h z : Char)
    (hh : isWS h = false) (hz : isWS z = false) :
    pyStripL (a ++ (h :: (Y ++ [z]))) =
      List.dropWhile isWS a ++ (h :: (Y ++ [z])) := by
  unfold pyStripL
  rw [dropWhile_append_headneg isWS h (Y ++ [z]) hh a]
  have hsplit : List.dropWhile isWS a ++ (h :: (Y ++ [z])) =
      (List.dropWhile isWS a ++ h :: Y) ++ [z] := by
    simp
  have hrev : (List.dropWhile isWS a ++ (h :: (Y ++ [z]))).reverse =
      z :: (List.dropWhile isWS a ++ h :: Y).reverse := by
    rw [hsplit, List.reverse_append]
    rfl
  rw [hrev]
  rw [List.dropWhile_cons, hz]
  simp only [Bool.false_eq_true, if_false]
  rw [← hrev, List.reverse_reverse]

theorem scanFuel_append_noslash : ∀ (p t : List Char),
    (∀ c ∈ p, c ≠ '/') →
    scanFuel (p ++ t).length (p ++ t) = p ++ scanFuel t.length t := by
  intro p
  induction p with
  | nil => intro t _; rfl
  | cons c p' ih =>
    intro t hp
    have hc : c ≠ '/' := hp c (by simp)
    have hstep : scanFuel ((p' ++ t).length + 1) (c :: (p' ++ t)) =
        c :: scanFuel (p' ++ t).length (p' ++ t) := by
      conv_lhs => unfold scanFuel
      rw [if_neg hc]
    calc scanFuel ((c :: p') ++ t).length ((c :: p') ++ t)
        = c :: scanFuel (p' ++ t).length (p' ++ t) := hstep
      _ = c :: (p' ++ scanFuel t.length t) := by
          rw [ih t (fun d hd => hp d (by simp [hd]))]
      _ = (c :: p') ++ scanFuel t.length t := rfl

theorem rstripSlashL_last (Y : List Char) (z : Char) (hz : z ≠ '/') :
    rstripSlashL (Y ++ [z]) = Y ++ [z] := by
  unfold rstripSlashL
  rw [List.reverse_append]
  have hzf : (z = '/') = False := by simp [hz]
  show ((z :: Y.reverse).dropWhile (fun c => c = '/')).reverse = Y ++ [z]
  rw [List.dropWhile_cons]
  simp [hz]

theorem isEmpty_append_cons (l : List Char) (c : Char) (r : List Char) :
    (l ++ c :: r).isEmpty = false := by
  cases l <;> rfl

/-- The common computation behind the C8 key: for a method with no `/`
and no `?`, the key of `method ++ " " ++ t` is the left-stripped prefix
followed by the scan of `t` — here instantiated at tails that scan to
`"/farmers"`. -/
theorem groupKey_shape (m api : String) (hm : ∀ c ∈ m.data, c ≠ '/' ∧ c ≠ '?')
    (t : String) (mid : List Char) (z : Char)
    (ht : t.data = '/' :: (mid ++ [z]))
    (hz : isWS z = false)
    (hnq : ∀ c ∈ t.data, c ≠ '?')
    (hscan : scanFuel t.data.length t.data = "/farmers".data) :
    groupKey m (some t) api =
      String.mk (List.dropWhile isWS (m.data ++ [' ']) ++ "/farmers".data) := by
  have hdata : (m ++ " " ++ t).data = (m.data ++ [' ']) ++ t.data := by
    show (m.data ++ [' ']) ++ t.data = _
    rfl
  have hstrip : pyStripL (m ++ " " ++ t).data =
      List.dropWhile isWS (m.data ++ [' ']) ++ t.data := by
    rw [hdata, ht]
    exact pyStripL_append (m.data ++ [' ']) mid '/' z rfl hz
  have hQ : ∀ c ∈ List.dropWhile isWS (m.data ++ [' ']), c ≠ '/' ∧ c ≠ '?' := by
    intro c hc
    have hc2 : c ∈ m.data ++ [' '] :=
      (List.dropWhile_sublist (l := m.data ++ [' ']) isWS).subset hc
    rcases List.mem_append.mp hc2 with h | h
    · exact hm c h
    · simp only [List.mem_singleton] at h
      subst h
      exact ⟨by decide, by decide⟩
  have hne : (pyStrip (m ++ " " ++ t) == "") = false := by
    apply beq_eq_false_iff_ne.mpr
    intro hcon
    have hdat : pyStripL (m ++ " " ++ t).data = [] := congrArg String.data hcon
    rw [hstrip, ht] at hdat
    rcases List.append_eq_nil.mp hdat with ⟨_, h2⟩
    exact List.cons_ne_nil _ _ h2
  have htw : ((pyStrip (m ++ " " ++ t)).data.takeWhile (fun c => c != '?')) =
      List.dropWhile isWS (m.data ++ [' ']) ++ t.data := by
    have hdq : (pyStrip (m ++ " " ++ t)).data =
        List.dropWhile isWS (m.data ++ [' ']) ++ t.data := hstrip
    rw [hdq]
    apply takeWhile_all
    intro c hc
    rcases List.mem_append.mp hc with h | h
    · exact bne_iff_ne.mpr (hQ c h).2
    · exact bne_iff_ne.mpr (hnq c h)
  have hsc : scanFuel (List.dropWhile isWS (m.data ++ [' ']) ++ t.data).length
      (List.dropWhile isWS (m.data ++ [' ']) ++ t.data) =
      List.dropWhile isWS (m.data ++ [' ']) ++ "/farmers".data := by
    rw [scanFuel_append_noslash _ t.data (fun c hc => (hQ c hc).1), hscan]
  have hfarm : "/farmers".data = "/farmer".data ++ ['s'] := rfl
  have hrs : rstripSlashL (List.dropWhile isWS (m.data ++ [' ']) ++ "/farmers".data) =
      List.dropWhile isWS (m.data ++ [' ']) ++ "/farmers".data := by
    rw [hfarm, ← List.append_assoc]
    rw [rstripSlashL_last _ 's' (by decide)]
  show (let ep0 := pyStrip (m ++ " " ++ optES (some t))
    let ep1 := if ep0 == "" then api else ep0
    let ep2 := ep1.data.takeWhile (fun c => c != '?')
    let base := rstripSlashL (scanFuel ep2.length ep2)
    if base.isEmpty then "/" else String.mk base) = _
  simp only [optES, hne, Bool.false_eq_true, if_false]
  rw [htw, hsc, hrs, hfarm, ← List.append_assoc]
  rw [isEmpty_append_cons]
  simp

/-- C8: for any method string free of `/` and `?` (every real HTTP
method), the two endpoints `/farmers/123` and `/farmers/456` normalize
to the identical group key; concretely, numeric ids, UUID-like
segments, `invalid-*` segments and `{placeholder}` segments are all
stripped, so all five example endpoints land under `GET /farmers`. -/
theorem c8_endpoint_normalization :
    (∀ (m api : String), (∀ c ∈ m.data, c ≠ '/' ∧ c ≠ '?') →
      groupKey m (some "/farmers/123") api = groupKey m (some "/farmers/456") api) ∧
    groupKey "GET" (some "/farmers/123") "" = "GET /farmers" ∧
    groupKey "GET" (some "/farmers/456") "" = "GET /farmers" ∧
    groupKey "GET" (some "/farmers/a1b2c3d4-e5f6-7890") "" = "GET /farmers" ∧
    groupKey "GET" (some "/farmers/invalid-farmer-id") "" = "GET /farmers" ∧
    groupKey "GET" (some "/farmers/\x7bfarmer_id\x7d") "" = "GET /farmers" := by
  refine ⟨?_, by decide, by decide, by decide, by decide, by decide⟩
  intro m api hm
  rw [groupKey_shape m api hm "/farmers/123" "farmers/12".data '3' (by decide)
    (by decide) (by decide) (by decide)]
  rw [groupKey_shape m api hm "/farmers/456" "farmers/45".data '6' (by decide)
    (by decide) (by decide) (by decide)]

/-- C8 witness: the generic equality instantiated at `GET`. -/
theorem c8_witness :
    groupKey "GET" (some "/farmers/123") "" = groupKey "GET" (some "/farmers/456") "" :=
  c8_endpoint_normalization.1 "GET" "" (by decide)

end Nccf
